import Mathlib

/-!
Verification of the cross-section geometry evaluators of
pipedream_solver/ngeometry.py.

Each Python evaluator is embedded as a Lean function over the real
numbers, mirroring the source line by line: the mean of the two junction
depths is formed first, then clamped by the same chain of conditionals as
in the source, and the closed-form shape formula is applied.  Machine
floats are idealised as reals; division by zero follows the Lean
convention x / 0 = 0 at the degenerate parameter points where the source
would produce a NaN.
-/

open Real

namespace NGeometry

/-- Machine epsilon for IEEE double precision, the value of
numpy finfo(float) eps used by the source (line 18). -/
noncomputable def eps : ℝ := 1 / 2 ^ 52

/-- Clamp of the mean depth into the interval from 0 to a shape-specific
maximum, written exactly as the two successive conditionals that every
evaluator of the source applies to y. -/
noncomputable def clamp0 (y ymax : ℝ) : ℝ :=
  if (if y < 0 then 0 else y) > ymax then ymax else (if y < 0 then 0 else y)

/-- Embedding of Circular_A_ik (ngeometry.py lines 20-49). -/
noncomputable def Circular_A_ik (h_Ik h_Ip1k g1 : ℝ) : ℝ :=
  let d := g1
  let y0 := (h_Ik + h_Ip1k) / 2
  let y1 := if y0 < 0 then 0 else y0
  let y := if y1 > d then d else y1
  let r := d / 2
  let phi0 := y / r
  let phi1 := if phi0 < 0 then 0 else phi0
  let phi := if phi1 > 2 then 2 else phi1
  let theta := Real.arccos (1 - phi)
  r ^ 2 * (theta - Real.cos theta * Real.sin theta)

/-- Embedding of Circular_Pe_ik (ngeometry.py lines 51-80). -/
noncomputable def Circular_Pe_ik (h_Ik h_Ip1k g1 : ℝ) : ℝ :=
  let d := g1
  let y0 := (h_Ik + h_Ip1k) / 2
  let y1 := if y0 < 0 then 0 else y0
  let y := if y1 > d then d else y1
  let r := d / 2
  let phi0 := y / r
  let phi1 := if phi0 < 0 then 0 else phi0
  let phi := if phi1 > 2 then 2 else phi1
  let theta := Real.arccos (1 - phi)
  2 * r * theta

/-- Embedding of Circular_R_ik (ngeometry.py lines 82-100). -/
noncomputable def Circular_R_ik (A_ik Pe_ik : ℝ) : ℝ :=
  if Pe_ik > 0 then A_ik / Pe_ik else 0

/-- Embedding of Circular_B_ik (ngeometry.py lines 102-137); note that y
is clamped below at 0 only, the surcharge is handled by the branch on
y < d. -/
noncomputable def Circular_B_ik (h_Ik h_Ip1k g1 g2 : ℝ) : ℝ :=
  let d := g1
  let pslot := g2
  let y0 := (h_Ik + h_Ip1k) / 2
  let y := if y0 < 0 then 0 else y0
  let r := d / 2
  let phi0 := y / r
  let phi1 := if phi0 < 0 then 0 else phi0
  let phi := if phi1 > 2 then 2 else phi1
  let theta := Real.arccos (1 - phi)
  if y < d then 2 * r * Real.sin theta else pslot * d

/-- Embedding of Rect_Closed_A_ik (ngeometry.py lines 140-165). -/
noncomputable def Rect_Closed_A_ik (h_Ik h_Ip1k g1 g2 : ℝ) : ℝ :=
  let y_max := g1
  let b := g2
  let y0 := (h_Ik + h_Ip1k) / 2
  let y1 := if y0 < 0 then 0 else y0
  let y := if y1 > y_max then y_max else y1
  y * b

/-- Embedding of Rect_Closed_Pe_ik (ngeometry.py lines 167-192). -/
noncomputable def Rect_Closed_Pe_ik (h_Ik h_Ip1k g1 g2 : ℝ) : ℝ :=
  let y_max := g1
  let b := g2
  let y0 := (h_Ik + h_Ip1k) / 2
  let y1 := if y0 < 0 then 0 else y0
  let y := if y1 > y_max then y_max else y1
  b + 2 * y

/-- Embedding of Rect_Closed_R_ik (ngeometry.py lines 194-212). -/
noncomputable def Rect_Closed_R_ik (A_ik Pe_ik : ℝ) : ℝ :=
  if Pe_ik > 0 then A_ik / Pe_ik else 0

/-- Embedding of Rect_Closed_B_ik (ngeometry.py lines 214-244). -/
noncomputable def Rect_Closed_B_ik (h_Ik h_Ip1k g1 g2 g3 : ℝ) : ℝ :=
  let y_max := g1
  let b := g2
  let pslot := g3
  let y0 := (h_Ik + h_Ip1k) / 2
  let y := if y0 < 0 then 0 else y0
  if y < y_max then b else pslot * b

/-- Embedding of Rect_Open_A_ik (ngeometry.py lines 247-272). -/
noncomputable def Rect_Open_A_ik (h_Ik h_Ip1k g1 g2 : ℝ) : ℝ :=
  let y_max := g1
  let b := g2
  let y0 := (h_Ik + h_Ip1k) / 2
  let y1 := if y0 < 0 then 0 else y0
  let y := if y1 > y_max then y_max else y1
  y * b

/-- Embedding of Rect_Open_Pe_ik (ngeometry.py lines 274-299). -/
noncomputable def Rect_Open_Pe_ik (h_Ik h_Ip1k g1 g2 : ℝ) : ℝ :=
  let y_max := g1
  let b := g2
  let y0 := (h_Ik + h_Ip1k) / 2
  let y1 := if y0 < 0 then 0 else y0
  let y := if y1 > y_max then y_max else y1
  b + 2 * y

/-- Embedding of Rect_Open_R_ik (ngeometry.py lines 301-319). -/
noncomputable def Rect_Open_R_ik (A_ik Pe_ik : ℝ) : ℝ :=
  if Pe_ik > 0 then A_ik / Pe_ik else 0

/-- Embedding of Rect_Open_B_ik (ngeometry.py lines 321-340): the top
width is the constant channel width. -/
noncomputable def Rect_Open_B_ik (h_Ik h_Ip1k g1 g2 : ℝ) : ℝ :=
  let b := g2
  b

/-- Embedding of Triangular_A_ik (ngeometry.py lines 343-368). -/
noncomputable def Triangular_A_ik (h_Ik h_Ip1k g1 g2 : ℝ) : ℝ :=
  let y_max := g1
  let m := g2
  let y0 := (h_Ik + h_Ip1k) / 2
  let y1 := if y0 < 0 then 0 else y0
  let y := if y1 > y_max then y_max else y1
  m * y ^ 2

/-- Embedding of Triangular_Pe_ik (ngeometry.py lines 370-395). -/
noncomputable def Triangular_Pe_ik (h_Ik h_Ip1k g1 g2 : ℝ) : ℝ :=
  let y_max := g1
  let m := g2
  let y0 := (h_Ik + h_Ip1k) / 2
  let y1 := if y0 < 0 then 0 else y0
  let y := if y1 > y_max then y_max else y1
  2 * y * Real.sqrt (1 + m ^ 2)

/-- Embedding of Triangular_R_ik (ngeometry.py lines 397-415). -/
noncomputable def Triangular_R_ik (A_ik Pe_ik : ℝ) : ℝ :=
  if Pe_ik > 0 then A_ik / Pe_ik else 0

/-- Embedding of Triangular_B_ik (ngeometry.py lines 417-444). -/
noncomputable def Triangular_B_ik (h_Ik h_Ip1k g1 g2 : ℝ) : ℝ :=
  let y_max := g1
  let m := g2
  let y0 := (h_Ik + h_Ip1k) / 2
  let y := if y0 < 0 then 0 else y0
  if y < y_max then 2 * m * y else 2 * m * y_max

/-- Embedding of Trapezoidal_A_ik (ngeometry.py lines 447-475). -/
noncomputable def Trapezoidal_A_ik (h_Ik h_Ip1k g1 g2 g3 : ℝ) : ℝ :=
  let y_max := g1
  let b := g2
  let m := g3
  let y0 := (h_Ik + h_Ip1k) / 2
  let y1 := if y0 < 0 then 0 else y0
  let y := if y1 > y_max then y_max else y1
  y * (b + m * y)

/-- Embedding of Trapezoidal_Pe_ik (ngeometry.py lines 477-505). -/
noncomputable def Trapezoidal_Pe_ik (h_Ik h_Ip1k g1 g2 g3 : ℝ) : ℝ :=
  let y_max := g1
  let b := g2
  let m := g3
  let y0 := (h_Ik + h_Ip1k) / 2
  let y1 := if y0 < 0 then 0 else y0
  let y := if y1 > y_max then y_max else y1
  b + 2 * y * Real.sqrt (1 + m ^ 2)

/-- Embedding of Trapezoidal_R_ik (ngeometry.py lines 507-525). -/
noncomputable def Trapezoidal_R_ik (A_ik Pe_ik : ℝ) : ℝ :=
  if Pe_ik > 0 then A_ik / Pe_ik else 0

/-- Embedding of Trapezoidal_B_ik (ngeometry.py lines 527-557). -/
noncomputable def Trapezoidal_B_ik (h_Ik h_Ip1k g1 g2 g3 : ℝ) : ℝ :=
  let y_max := g1
  let b := g2
  let m := g3
  let y0 := (h_Ik + h_Ip1k) / 2
  let y := if y0 < 0 then 0 else y0
  if y < y_max then b + 2 * m * y else b + 2 * m * y_max

/-- Embedding of Parabolic_A_ik (ngeometry.py lines 559-584). -/
noncomputable def Parabolic_A_ik (h_Ik h_Ip1k g1 g2 : ℝ) : ℝ :=
  let y_max := g1
  let b := g2
  let y0 := (h_Ik + h_Ip1k) / 2
  let y1 := if y0 < 0 then 0 else y0
  let y := if y1 > y_max then y_max else y1
  2 * b * y / 3

/-- Embedding of Parabolic_Pe_ik (ngeometry.py lines 586-612): a depth
at or below zero is replaced by the machine epsilon before the clamped
formula is evaluated. -/
noncomputable def Parabolic_Pe_ik (h_Ik h_Ip1k g1 g2 : ℝ) : ℝ :=
  let y_max := g1
  let b := g2
  let y0 := (h_Ik + h_Ip1k) / 2
  let y1 := if y0 ≤ 0 then eps else y0
  let y := if y1 > y_max then y_max else y1
  let x := 4 * y / b
  (b / 2) * (Real.sqrt (1 + x ^ 2) + (1 / x) * Real.log (x + Real.sqrt (1 + x ^ 2)))

/-- Embedding of Parabolic_R_ik (ngeometry.py lines 614-632). -/
noncomputable def Parabolic_R_ik (A_ik Pe_ik : ℝ) : ℝ :=
  if Pe_ik > 0 then A_ik / Pe_ik else 0

/-- Embedding of Parabolic_B_ik (ngeometry.py lines 634-657); note the
source clamps y below at 0 but never above at y_max. -/
noncomputable def Parabolic_B_ik (h_Ik h_Ip1k g1 g2 : ℝ) : ℝ :=
  let y_max := g1
  let b := g2
  let y0 := (h_Ik + h_Ip1k) / 2
  let y := if y0 < 0 then 0 else y0
  b * Real.sqrt (y / y_max)

/-- Embedding of Elliptical_A_ik (ngeometry.py lines 659-688). -/
noncomputable def Elliptical_A_ik (h_Ik h_Ip1k g1 g2 : ℝ) : ℝ :=
  let y_max := g1
  let b := g1 / 2
  let a := g2 / 2
  let y0 := (h_Ik + h_Ip1k) / 2
  let y1 := if y0 < 0 then 0 else y0
  let y := if y1 > y_max then y_max else y1
  let theta := Real.arcsin ((y - b) / b)
  let A_a := a * b * (Real.pi / 2 + theta)
  let A_b := a * b * Real.cos theta * Real.sin theta
  A_a + A_b

/-- Embedding of Elliptical_R_ik (ngeometry.py lines 690-708). -/
noncomputable def Elliptical_R_ik (A_ik Pe_ik : ℝ) : ℝ :=
  if Pe_ik > 0 then A_ik / Pe_ik else 0

/-- Embedding of Elliptical_B_ik (ngeometry.py lines 710-738). -/
noncomputable def Elliptical_B_ik (h_Ik h_Ip1k g1 g2 : ℝ) : ℝ :=
  let y_max := g1
  let b := g1 / 2
  let a := g2 / 2
  let y0 := (h_Ik + h_Ip1k) / 2
  let y1 := if y0 < 0 then 0 else y0
  let y := if y1 > y_max then y_max else y1
  let theta := Real.arcsin ((y - b) / b)
  2 * Real.cos theta *
    Real.sqrt (a ^ 2 * Real.cos theta ^ 2 + b ^ 2 * Real.sin theta ^ 2)

/-- Embedding of Wide_A_ik (ngeometry.py lines 741-766). -/
noncomputable def Wide_A_ik (h_Ik h_Ip1k g1 g2 : ℝ) : ℝ :=
  let y_max := g1
  let b := g2
  let y0 := (h_Ik + h_Ip1k) / 2
  let y1 := if y0 < 0 then 0 else y0
  let y := if y1 > y_max then y_max else y1
  y * b

/-- Embedding of Wide_Pe_ik (ngeometry.py lines 768-787): the perimeter
is the constant channel width. -/
noncomputable def Wide_Pe_ik (h_Ik h_Ip1k g1 g2 : ℝ) : ℝ :=
  let b := g2
  b

/-- Embedding of Wide_R_ik (ngeometry.py lines 789-807). -/
noncomputable def Wide_R_ik (A_ik Pe_ik : ℝ) : ℝ :=
  if Pe_ik > 0 then A_ik / Pe_ik else 0

/-- Embedding of Wide_B_ik (ngeometry.py lines 809-828). -/
noncomputable def Wide_B_ik (h_Ik h_Ip1k g1 g2 : ℝ) : ℝ :=
  let b := g2
  b

/-- Embedding of Force_Main_A_ik (ngeometry.py lines 830-850): a force
main is always full, the area does not depend on the depths. -/
noncomputable def Force_Main_A_ik (h_Ik h_Ip1k g1 g2 : ℝ) : ℝ :=
  let d := g1
  let r := d / 2
  Real.pi * r ^ 2

/-- Embedding of Force_Main_Pe_ik (ngeometry.py lines 852-871). -/
noncomputable def Force_Main_Pe_ik (h_Ik h_Ip1k g1 g2 : ℝ) : ℝ :=
  let d := g1
  Real.pi * d

/-- Embedding of Force_Main_R_ik (ngeometry.py lines 873-891). -/
noncomputable def Force_Main_R_ik (A_ik Pe_ik : ℝ) : ℝ :=
  if Pe_ik > 0 then A_ik / Pe_ik else 0

/-- Embedding of Force_Main_B_ik (ngeometry.py lines 893-913). -/
noncomputable def Force_Main_B_ik (h_Ik h_Ip1k g1 g2 : ℝ) : ℝ :=
  let d := g1
  let pslot := g2
  pslot * d

/-- Embedding of Floodplain_A_ik (ngeometry.py lines 915-960).  The
Python if and elif pair assigning y_lower and y_upper is rendered as two
conditionals on the same test y < y_mid. -/
noncomputable def Floodplain_A_ik (h_Ik h_Ip1k g1 g2 g3 g4 g5 g6 : ℝ) : ℝ :=
  let y_max := g1
  let y_mid := g2
  let b_lower := g3
  let b_upper := g4
  let m_lower := g5
  let m_upper := g6
  let y0 := (h_Ik + h_Ip1k) / 2
  let y1 := if y0 < 0 then 0 else y0
  let y := if y1 > y_max then y_max else y1
  let y_lower := if y < y_mid then y else y_mid
  let y_upper := if y < y_mid then 0 else y - y_mid
  let A_lower := y_lower * (b_lower + m_lower * y_lower)
  let A_upper := y_upper * (b_upper + m_upper * y_upper)
  A_lower + A_upper

/-- Embedding of Floodplain_Pe_ik (ngeometry.py lines 962-1010). -/
noncomputable def Floodplain_Pe_ik (h_Ik h_Ip1k g1 g2 g3 g4 g5 g6 : ℝ) : ℝ :=
  let y_max := g1
  let y_mid := g2
  let b_lower := g3
  let b_upper := g4
  let m_lower := g5
  let m_upper := g6
  let y0 := (h_Ik + h_Ip1k) / 2
  let b_mid := b_lower + 2 * m_lower * y_mid
  let y1 := if y0 < 0 then 0 else y0
  let y := if y1 > y_max then y_max else y1
  let y_lower := if y < y_mid then y else y_mid
  let y_upper := if y < y_mid then 0 else y - y_mid
  let k : ℝ := if y < y_mid then 0 else 1
  let Pe_lower := b_lower + 2 * y_lower * Real.sqrt (1 + m_lower ^ 2)
  let Pe_upper := k * (b_upper - b_mid) + 2 * y_upper * Real.sqrt (1 + m_upper ^ 2)
  Pe_lower + Pe_upper

/-- Embedding of Floodplain_R_ik (ngeometry.py lines 1012-1030). -/
noncomputable def Floodplain_R_ik (A_ik Pe_ik : ℝ) : ℝ :=
  if Pe_ik > 0 then A_ik / Pe_ik else 0

/-- Embedding of Floodplain_B_ik (ngeometry.py lines 1032-1074). -/
noncomputable def Floodplain_B_ik (h_Ik h_Ip1k g1 g2 g3 g4 g5 g6 : ℝ) : ℝ :=
  let y_max := g1
  let y_mid := g2
  let b_lower := g3
  let b_upper := g4
  let m_lower := g5
  let m_upper := g6
  let y0 := (h_Ik + h_Ip1k) / 2
  let y1 := if y0 < 0 then 0 else y0
  let y := if y1 > y_max then y_max else y1
  if y < y_mid then b_lower + 2 * m_lower * y
  else b_upper + 2 * m_upper * (y - y_mid)

/-- The shared hydraulic radius rule of the specification: area over
wetted perimeter when the perimeter is positive, zero otherwise. -/
noncomputable def radius (A Pe : ℝ) : ℝ :=
  if Pe > 0 then A / Pe else 0

end NGeometry

namespace NGeometry

/-! ### Elementary helper lemmas -/

lemma eps_pos : (0:ℝ) < eps := by
  unfold eps; positivity

lemma sin_le_self {x : ℝ} (hx : 0 ≤ x) : Real.sin x ≤ x := by
  rcases eq_or_lt_of_le hx with h | h
  · simp [← h]
  · exact (Real.sin_lt h).le

lemma arccos_anti {x y : ℝ} (hxy : x ≤ y) : Real.arccos y ≤ Real.arccos x := by
  rw [Real.arccos_eq_pi_div_two_sub_arcsin, Real.arccos_eq_pi_div_two_sub_arcsin]
  have := Real.monotone_arcsin hxy
  linarith

lemma self_le_sqrt_one_add_sq {m : ℝ} (hm : 0 ≤ m) : m ≤ Real.sqrt (1 + m ^ 2) := by
  have h := Real.sqrt_le_sqrt (show m ^ 2 ≤ 1 + m ^ 2 by linarith)
  rwa [Real.sqrt_sq hm] at h

lemma one_le_sqrt_one_add_sq (m : ℝ) : 1 ≤ Real.sqrt (1 + m ^ 2) := by
  have h := Real.sqrt_le_sqrt (show (1:ℝ) ≤ 1 + m ^ 2 by nlinarith [sq_nonneg m])
  rwa [Real.sqrt_one] at h

lemma quad_nonneg {y b m : ℝ} (hy : 0 ≤ y) (hb : 0 ≤ b) (hm : 0 ≤ m) :
    0 ≤ y * (b + m * y) := by
  nlinarith [mul_nonneg hy hb, mul_nonneg hm (mul_nonneg hy hy)]

lemma quad_mono {b m y1 y2 : ℝ} (hb : 0 ≤ b) (hm : 0 ≤ m) (h0 : 0 ≤ y1)
    (h12 : y1 ≤ y2) : y1 * (b + m * y1) ≤ y2 * (b + m * y2) := by
  nlinarith [mul_nonneg hb (sub_nonneg.mpr h12),
    mul_nonneg hm (mul_nonneg (show (0:ℝ) ≤ y1 + y2 by linarith) (sub_nonneg.mpr h12))]

/-- The integrand of the circular area formula is nonnegative for any
value of the arccosine argument. -/
lemma arccos_sub_cos_sin_nonneg (t : ℝ) :
    0 ≤ Real.arccos t - Real.cos (Real.arccos t) * Real.sin (Real.arccos t) := by
  have h0 := Real.arccos_nonneg t
  have hs : Real.sin (2 * Real.arccos t) ≤ 2 * Real.arccos t :=
    sin_le_self (by linarith)
  have h2 : Real.cos (Real.arccos t) * Real.sin (Real.arccos t)
      = Real.sin (2 * Real.arccos t) / 2 := by
    rw [Real.sin_two_mul]; ring
  linarith

/-- Monotonicity of the map a to a minus cos a times sin a, used for the
circular area. -/
lemma sub_cos_sin_mono {a b : ℝ} (hab : a ≤ b) :
    a - Real.cos a * Real.sin a ≤ b - Real.cos b * Real.sin b := by
  have h2a : Real.cos a * Real.sin a = Real.sin (2 * a) / 2 := by
    rw [Real.sin_two_mul]; ring
  have h2b : Real.cos b * Real.sin b = Real.sin (2 * b) / 2 := by
    rw [Real.sin_two_mul]; ring
  have hsub : Real.sin (2 * b) - Real.sin (2 * a)
      = 2 * Real.sin ((2 * b - 2 * a) / 2) * Real.cos ((2 * b + 2 * a) / 2) :=
    Real.sin_sub_sin _ _
  have habs : |Real.sin ((2 * b - 2 * a) / 2)| ≤ |(2 * b - 2 * a) / 2| :=
    Real.abs_sin_le_abs
  have hd : |(2 * b - 2 * a) / 2| = b - a := by
    rw [abs_of_nonneg (by linarith)]; ring
  have hcos : |Real.cos ((2 * b + 2 * a) / 2)| ≤ 1 := Real.abs_cos_le_one _
  have hstep : Real.sin (2 * b) - Real.sin (2 * a) ≤ 2 * (b - a) := by
    rw [hsub]
    have h1 : 2 * Real.sin ((2 * b - 2 * a) / 2) * Real.cos ((2 * b + 2 * a) / 2)
        ≤ |2 * Real.sin ((2 * b - 2 * a) / 2) * Real.cos ((2 * b + 2 * a) / 2)| :=
      le_abs_self _
    have h2 : |2 * Real.sin ((2 * b - 2 * a) / 2) * Real.cos ((2 * b + 2 * a) / 2)|
        = 2 * |Real.sin ((2 * b - 2 * a) / 2)| * |Real.cos ((2 * b + 2 * a) / 2)| := by
      rw [abs_mul, abs_mul]
      norm_num
    have h3 : 2 * |Real.sin ((2 * b - 2 * a) / 2)| * |Real.cos ((2 * b + 2 * a) / 2)|
        ≤ 2 * |Real.sin ((2 * b - 2 * a) / 2)| * 1 :=
      mul_le_mul_of_nonneg_left hcos (by positivity)
    have h4 : 2 * |Real.sin ((2 * b - 2 * a) / 2)| * 1 ≤ 2 * (b - a) := by
      rw [mul_one]
      have := habs.trans_eq hd
      linarith
    linarith
  linarith

end NGeometry

namespace NGeometry

/-! ### Clamp invariance: every evaluator reads the depths only through
the clamped mean depth (Parabolic_B_ik excepted, see below) -/

set_option maxHeartbeats 2000000 in
lemma Circular_A_clamp (h1 h2 g1 : ℝ) :
    Circular_A_ik h1 h2 g1
      = Circular_A_ik (clamp0 ((h1 + h2) / 2) g1) (clamp0 ((h1 + h2) / 2) g1) g1 := by
  simp only [Circular_A_ik, clamp0, add_self_div_two]
  split_ifs <;> first | rfl | linarith [eps_pos]

set_option maxHeartbeats 2000000 in
lemma Circular_Pe_clamp (h1 h2 g1 : ℝ) :
    Circular_Pe_ik h1 h2 g1
      = Circular_Pe_ik (clamp0 ((h1 + h2) / 2) g1) (clamp0 ((h1 + h2) / 2) g1) g1 := by
  simp only [Circular_Pe_ik, clamp0, add_self_div_two]
  split_ifs <;> first | rfl | linarith [eps_pos]

set_option maxHeartbeats 2000000 in
lemma Circular_B_clamp (h1 h2 g1 g2 : ℝ) :
    Circular_B_ik h1 h2 g1 g2
      = Circular_B_ik (clamp0 ((h1 + h2) / 2) g1) (clamp0 ((h1 + h2) / 2) g1) g1 g2 := by
  simp only [Circular_B_ik, clamp0, add_self_div_two]
  split_ifs <;> first | rfl | linarith [eps_pos]

set_option maxHeartbeats 2000000 in
lemma Rect_Closed_A_clamp (h1 h2 g1 g2 : ℝ) :
    Rect_Closed_A_ik h1 h2 g1 g2
      = Rect_Closed_A_ik (clamp0 ((h1 + h2) / 2) g1) (clamp0 ((h1 + h2) / 2) g1) g1 g2 := by
  simp only [Rect_Closed_A_ik, clamp0, add_self_div_two]
  split_ifs <;> first | rfl | linarith [eps_pos]

set_option maxHeartbeats 2000000 in
lemma Rect_Closed_Pe_clamp (h1 h2 g1 g2 : ℝ) :
    Rect_Closed_Pe_ik h1 h2 g1 g2
      = Rect_Closed_Pe_ik (clamp0 ((h1 + h2) / 2) g1) (clamp0 ((h1 + h2) / 2) g1) g1 g2 := by
  simp only [Rect_Closed_Pe_ik, clamp0, add_self_div_two]
  split_ifs <;> first | rfl | linarith [eps_pos]

set_option maxHeartbeats 2000000 in
lemma Rect_Closed_B_clamp (h1 h2 g1 g2 g3 : ℝ) :
    Rect_Closed_B_ik h1 h2 g1 g2 g3
      = Rect_Closed_B_ik (clamp0 ((h1 + h2) / 2) g1) (clamp0 ((h1 + h2) / 2) g1) g1 g2 g3 := by
  simp only [Rect_Closed_B_ik, clamp0, add_self_div_two]
  split_ifs <;> first | rfl | linarith [eps_pos]

set_option maxHeartbeats 2000000 in
lemma Rect_Open_A_clamp (h1 h2 g1 g2 : ℝ) :
    Rect_Open_A_ik h1 h2 g1 g2
      = Rect_Open_A_ik (clamp0 ((h1 + h2) / 2) g1) (clamp0 ((h1 + h2) / 2) g1) g1 g2 := by
  simp only [Rect_Open_A_ik, clamp0, add_self_div_two]
  split_ifs <;> first | rfl | linarith [eps_pos]

set_option maxHeartbeats 2000000 in
lemma Rect_Open_Pe_clamp (h1 h2 g1 g2 : ℝ) :
    Rect_Open_Pe_ik h1 h2 g1 g2
      = Rect_Open_Pe_ik (clamp0 ((h1 + h2) / 2) g1) (clamp0 ((h1 + h2) / 2) g1) g1 g2 := by
  simp only [Rect_Open_Pe_ik, clamp0, add_self_div_two]
  split_ifs <;> first | rfl | linarith [eps_pos]

lemma Rect_Open_B_clamp (h1 h2 g1 g2 : ℝ) :
    Rect_Open_B_ik h1 h2 g1 g2
      = Rect_Open_B_ik (clamp0 ((h1 + h2) / 2) g1) (clamp0 ((h1 + h2) / 2) g1) g1 g2 := rfl

set_option maxHeartbeats 2000000 in
lemma Triangular_A_clamp (h1 h2 g1 g2 : ℝ) :
    Triangular_A_ik h1 h2 g1 g2
      = Triangular_A_ik (clamp0 ((h1 + h2) / 2) g1) (clamp0 ((h1 + h2) / 2) g1) g1 g2 := by
  simp only [Triangular_A_ik, clamp0, add_self_div_two]
  split_ifs <;> first | rfl | linarith [eps_pos]

set_option maxHeartbeats 2000000 in
lemma Triangular_Pe_clamp (h1 h2 g1 g2 : ℝ) :
    Triangular_Pe_ik h1 h2 g1 g2
      = Triangular_Pe_ik (clamp0 ((h1 + h2) / 2) g1) (clamp0 ((h1 + h2) / 2) g1) g1 g2 := by
  simp only [Triangular_Pe_ik, clamp0, add_self_div_two]
  split_ifs <;> first | rfl | linarith [eps_pos]

set_option maxHeartbeats 2000000 in
lemma Triangular_B_clamp (h1 h2 g1 g2 : ℝ) :
    Triangular_B_ik h1 h2 g1 g2
      = Triangular_B_ik (clamp0 ((h1 + h2) / 2) g1) (clamp0 ((h1 + h2) / 2) g1) g1 g2 := by
  simp only [Triangular_B_ik, clamp0, add_self_div_two]
  split_ifs <;> first | rfl | linarith [eps_pos]

set_option maxHeartbeats 2000000 in
lemma Trapezoidal_A_clamp (h1 h2 g1 g2 g3 : ℝ) :
    Trapezoidal_A_ik h1 h2 g1 g2 g3
      = Trapezoidal_A_ik (clamp0 ((h1 + h2) / 2) g1) (clamp0 ((h1 + h2) / 2) g1) g1 g2 g3 := by
  simp only [Trapezoidal_A_ik, clamp0, add_self_div_two]
  split_ifs <;> first | rfl | linarith [eps_pos]

set_option maxHeartbeats 2000000 in
lemma Trapezoidal_Pe_clamp (h1 h2 g1 g2 g3 : ℝ) :
    Trapezoidal_Pe_ik h1 h2 g1 g2 g3
      = Trapezoidal_Pe_ik (clamp0 ((h1 + h2) / 2) g1) (clamp0 ((h1 + h2) / 2) g1) g1 g2 g3 := by
  simp only [Trapezoidal_Pe_ik, clamp0, add_self_div_two]
  split_ifs <;> first | rfl | linarith [eps_pos]

set_option maxHeartbeats 2000000 in
lemma Trapezoidal_B_clamp (h1 h2 g1 g2 g3 : ℝ) :
    Trapezoidal_B_ik h1 h2 g1 g2 g3
      = Trapezoidal_B_ik (clamp0 ((h1 + h2) / 2) g1) (clamp0 ((h1 + h2) / 2) g1) g1 g2 g3 := by
  simp only [Trapezoidal_B_ik, clamp0, add_self_div_two]
  split_ifs <;> first | rfl | linarith [eps_pos]

set_option maxHeartbeats 2000000 in
lemma Parabolic_A_clamp (h1 h2 g1 g2 : ℝ) :
    Parabolic_A_ik h1 h2 g1 g2
      = Parabolic_A_ik (clamp0 ((h1 + h2) / 2) g1) (clamp0 ((h1 + h2) / 2) g1) g1 g2 := by
  simp only [Parabolic_A_ik, clamp0, add_self_div_two]
  split_ifs <;> first | rfl | linarith [eps_pos]

set_option maxHeartbeats 2000000 in
lemma Parabolic_Pe_clamp (h1 h2 g1 g2 : ℝ) :
    Parabolic_Pe_ik h1 h2 g1 g2
      = Parabolic_Pe_ik (clamp0 ((h1 + h2) / 2) g1) (clamp0 ((h1 + h2) / 2) g1) g1 g2 := by
  simp only [Parabolic_Pe_ik, clamp0, add_self_div_two]
  split_ifs <;> first | rfl | linarith [eps_pos]

set_option maxHeartbeats 2000000 in
lemma Elliptical_A_clamp (h1 h2 g1 g2 : ℝ) :
    Elliptical_A_ik h1 h2 g1 g2
      = Elliptical_A_ik (clamp0 ((h1 + h2) / 2) g1) (clamp0 ((h1 + h2) / 2) g1) g1 g2 := by
  simp only [Elliptical_A_ik, clamp0, add_self_div_two]
  split_ifs <;> first | rfl | linarith [eps_pos]

set_option maxHeartbeats 2000000 in
lemma Elliptical_B_clamp (h1 h2 g1 g2 : ℝ) :
    Elliptical_B_ik h1 h2 g1 g2
      = Elliptical_B_ik (clamp0 ((h1 + h2) / 2) g1) (clamp0 ((h1 + h2) / 2) g1) g1 g2 := by
  simp only [Elliptical_B_ik, clamp0, add_self_div_two]
  split_ifs <;> first | rfl | linarith [eps_pos]

set_option maxHeartbeats 2000000 in
lemma Wide_A_clamp (h1 h2 g1 g2 : ℝ) :
    Wide_A_ik h1 h2 g1 g2
      = Wide_A_ik (clamp0 ((h1 + h2) / 2) g1) (clamp0 ((h1 + h2) / 2) g1) g1 g2 := by
  simp only [Wide_A_ik, clamp0, add_self_div_two]
  split_ifs <;> first | rfl | linarith [eps_pos]

lemma Wide_Pe_clamp (h1 h2 g1 g2 : ℝ) :
    Wide_Pe_ik h1 h2 g1 g2
      = Wide_Pe_ik (clamp0 ((h1 + h2) / 2) g1) (clamp0 ((h1 + h2) / 2) g1) g1 g2 := rfl

lemma Wide_B_clamp (h1 h2 g1 g2 : ℝ) :
    Wide_B_ik h1 h2 g1 g2
      = Wide_B_ik (clamp0 ((h1 + h2) / 2) g1) (clamp0 ((h1 + h2) / 2) g1) g1 g2 := rfl

lemma Force_Main_A_clamp (h1 h2 g1 g2 : ℝ) :
    Force_Main_A_ik h1 h2 g1 g2
      = Force_Main_A_ik (clamp0 ((h1 + h2) / 2) g1) (clamp0 ((h1 + h2) / 2) g1) g1 g2 := rfl

lemma Force_Main_Pe_clamp (h1 h2 g1 g2 : ℝ) :
    Force_Main_Pe_ik h1 h2 g1 g2
      = Force_Main_Pe_ik (clamp0 ((h1 + h2) / 2) g1) (clamp0 ((h1 + h2) / 2) g1) g1 g2 := rfl

lemma Force_Main_B_clamp (h1 h2 g1 g2 : ℝ) :
    Force_Main_B_ik h1 h2 g1 g2
      = Force_Main_B_ik (clamp0 ((h1 + h2) / 2) g1) (clamp0 ((h1 + h2) / 2) g1) g1 g2 := rfl

set_option maxHeartbeats 2000000 in
lemma Floodplain_A_clamp (h1 h2 g1 g2 g3 g4 g5 g6 : ℝ) :
    Floodplain_A_ik h1 h2 g1 g2 g3 g4 g5 g6
      = Floodplain_A_ik (clamp0 ((h1 + h2) / 2) g1) (clamp0 ((h1 + h2) / 2) g1) g1 g2 g3 g4 g5 g6 := by
  simp only [Floodplain_A_ik, clamp0, add_self_div_two]
  split_ifs <;> first | rfl | linarith [eps_pos]

set_option maxHeartbeats 2000000 in
lemma Floodplain_Pe_clamp (h1 h2 g1 g2 g3 g4 g5 g6 : ℝ) :
    Floodplain_Pe_ik h1 h2 g1 g2 g3 g4 g5 g6
      = Floodplain_Pe_ik (clamp0 ((h1 + h2) / 2) g1) (clamp0 ((h1 + h2) / 2) g1) g1 g2 g3 g4 g5 g6 := by
  simp only [Floodplain_Pe_ik, clamp0, add_self_div_two]
  split_ifs <;> first | rfl | linarith [eps_pos]

set_option maxHeartbeats 2000000 in
lemma Floodplain_B_clamp (h1 h2 g1 g2 g3 g4 g5 g6 : ℝ) :
    Floodplain_B_ik h1 h2 g1 g2 g3 g4 g5 g6
      = Floodplain_B_ik (clamp0 ((h1 + h2) / 2) g1) (clamp0 ((h1 + h2) / 2) g1) g1 g2 g3 g4 g5 g6 := by
  simp only [Floodplain_B_ik, clamp0, add_self_div_two]
  split_ifs <;> first | rfl | linarith [eps_pos]

/-- Parabolic_B_ik clamps the mean depth below at zero only. -/
lemma Parabolic_B_lower_clamp (h1 h2 g1 g2 : ℝ) :
    Parabolic_B_ik h1 h2 g1 g2
      = Parabolic_B_ik (if (h1 + h2) / 2 < 0 then 0 else (h1 + h2) / 2)
          (if (h1 + h2) / 2 < 0 then 0 else (h1 + h2) / 2) g1 g2 := by
  simp only [Parabolic_B_ik, add_self_div_two]
  split_ifs <;> first | rfl | linarith

/-! ### Symmetry in the two depth arguments -/

lemma Circular_A_symm (h1 h2 g1 : ℝ) :
    Circular_A_ik h1 h2 g1 = Circular_A_ik h2 h1 g1 := by
  simp only [Circular_A_ik]
  rw [add_comm h1 h2]

lemma Circular_Pe_symm (h1 h2 g1 : ℝ) :
    Circular_Pe_ik h1 h2 g1 = Circular_Pe_ik h2 h1 g1 := by
  simp only [Circular_Pe_ik]
  rw [add_comm h1 h2]

lemma Circular_B_symm (h1 h2 g1 g2 : ℝ) :
    Circular_B_ik h1 h2 g1 g2 = Circular_B_ik h2 h1 g1 g2 := by
  simp only [Circular_B_ik]
  rw [add_comm h1 h2]

lemma Rect_Closed_A_symm (h1 h2 g1 g2 : ℝ) :
    Rect_Closed_A_ik h1 h2 g1 g2 = Rect_Closed_A_ik h2 h1 g1 g2 := by
  simp only [Rect_Closed_A_ik]
  rw [add_comm h1 h2]

lemma Rect_Closed_Pe_symm (h1 h2 g1 g2 : ℝ) :
    Rect_Closed_Pe_ik h1 h2 g1 g2 = Rect_Closed_Pe_ik h2 h1 g1 g2 := by
  simp only [Rect_Closed_Pe_ik]
  rw [add_comm h1 h2]

lemma Rect_Closed_B_symm (h1 h2 g1 g2 g3 : ℝ) :
    Rect_Closed_B_ik h1 h2 g1 g2 g3 = Rect_Closed_B_ik h2 h1 g1 g2 g3 := by
  simp only [Rect_Closed_B_ik]
  rw [add_comm h1 h2]

lemma Rect_Open_A_symm (h1 h2 g1 g2 : ℝ) :
    Rect_Open_A_ik h1 h2 g1 g2 = Rect_Open_A_ik h2 h1 g1 g2 := by
  simp only [Rect_Open_A_ik]
  rw [add_comm h1 h2]

lemma Rect_Open_Pe_symm (h1 h2 g1 g2 : ℝ) :
    Rect_Open_Pe_ik h1 h2 g1 g2 = Rect_Open_Pe_ik h2 h1 g1 g2 := by
  simp only [Rect_Open_Pe_ik]
  rw [add_comm h1 h2]

lemma Rect_Open_B_symm (h1 h2 g1 g2 : ℝ) :
    Rect_Open_B_ik h1 h2 g1 g2 = Rect_Open_B_ik h2 h1 g1 g2 := rfl

lemma Triangular_A_symm (h1 h2 g1 g2 : ℝ) :
    Triangular_A_ik h1 h2 g1 g2 = Triangular_A_ik h2 h1 g1 g2 := by
  simp only [Triangular_A_ik]
  rw [add_comm h1 h2]

lemma Triangular_Pe_symm (h1 h2 g1 g2 : ℝ) :
    Triangular_Pe_ik h1 h2 g1 g2 = Triangular_Pe_ik h2 h1 g1 g2 := by
  simp only [Triangular_Pe_ik]
  rw [add_comm h1 h2]

lemma Triangular_B_symm (h1 h2 g1 g2 : ℝ) :
    Triangular_B_ik h1 h2 g1 g2 = Triangular_B_ik h2 h1 g1 g2 := by
  simp only [Triangular_B_ik]
  rw [add_comm h1 h2]

lemma Trapezoidal_A_symm (h1 h2 g1 g2 g3 : ℝ) :
    Trapezoidal_A_ik h1 h2 g1 g2 g3 = Trapezoidal_A_ik h2 h1 g1 g2 g3 := by
  simp only [Trapezoidal_A_ik]
  rw [add_comm h1 h2]

lemma Trapezoidal_Pe_symm (h1 h2 g1 g2 g3 : ℝ) :
    Trapezoidal_Pe_ik h1 h2 g1 g2 g3 = Trapezoidal_Pe_ik h2 h1 g1 g2 g3 := by
  simp only [Trapezoidal_Pe_ik]
  rw [add_comm h1 h2]

lemma Trapezoidal_B_symm (h1 h2 g1 g2 g3 : ℝ) :
    Trapezoidal_B_ik h1 h2 g1 g2 g3 = Trapezoidal_B_ik h2 h1 g1 g2 g3 := by
  simp only [Trapezoidal_B_ik]
  rw [add_comm h1 h2]

lemma Parabolic_A_symm (h1 h2 g1 g2 : ℝ) :
    Parabolic_A_ik h1 h2 g1 g2 = Parabolic_A_ik h2 h1 g1 g2 := by
  simp only [Parabolic_A_ik]
  rw [add_comm h1 h2]

lemma Parabolic_Pe_symm (h1 h2 g1 g2 : ℝ) :
    Parabolic_Pe_ik h1 h2 g1 g2 = Parabolic_Pe_ik h2 h1 g1 g2 := by
  simp only [Parabolic_Pe_ik]
  rw [add_comm h1 h2]

lemma Parabolic_B_symm (h1 h2 g1 g2 : ℝ) :
    Parabolic_B_ik h1 h2 g1 g2 = Parabolic_B_ik h2 h1 g1 g2 := by
  simp only [Parabolic_B_ik]
  rw [add_comm h1 h2]

lemma Elliptical_A_symm (h1 h2 g1 g2 : ℝ) :
    Elliptical_A_ik h1 h2 g1 g2 = Elliptical_A_ik h2 h1 g1 g2 := by
  simp only [Elliptical_A_ik]
  rw [add_comm h1 h2]

lemma Elliptical_B_symm (h1 h2 g1 g2 : ℝ) :
    Elliptical_B_ik h1 h2 g1 g2 = Elliptical_B_ik h2 h1 g1 g2 := by
  simp only [Elliptical_B_ik]
  rw [add_comm h1 h2]

lemma Wide_A_symm (h1 h2 g1 g2 : ℝ) :
    Wide_A_ik h1 h2 g1 g2 = Wide_A_ik h2 h1 g1 g2 := by
  simp only [Wide_A_ik]
  rw [add_comm h1 h2]

lemma Wide_Pe_symm (h1 h2 g1 g2 : ℝ) :
    Wide_Pe_ik h1 h2 g1 g2 = Wide_Pe_ik h2 h1 g1 g2 := rfl

lemma Wide_B_symm (h1 h2 g1 g2 : ℝ) :
    Wide_B_ik h1 h2 g1 g2 = Wide_B_ik h2 h1 g1 g2 := rfl

lemma Force_Main_A_symm (h1 h2 g1 g2 : ℝ) :
    Force_Main_A_ik h1 h2 g1 g2 = Force_Main_A_ik h2 h1 g1 g2 := rfl

lemma Force_Main_Pe_symm (h1 h2 g1 g2 : ℝ) :
    Force_Main_Pe_ik h1 h2 g1 g2 = Force_Main_Pe_ik h2 h1 g1 g2 := rfl

lemma Force_Main_B_symm (h1 h2 g1 g2 : ℝ) :
    Force_Main_B_ik h1 h2 g1 g2 = Force_Main_B_ik h2 h1 g1 g2 := rfl

lemma Floodplain_A_symm (h1 h2 g1 g2 g3 g4 g5 g6 : ℝ) :
    Floodplain_A_ik h1 h2 g1 g2 g3 g4 g5 g6 = Floodplain_A_ik h2 h1 g1 g2 g3 g4 g5 g6 := by
  simp only [Floodplain_A_ik]
  rw [add_comm h1 h2]

lemma Floodplain_Pe_symm (h1 h2 g1 g2 g3 g4 g5 g6 : ℝ) :
    Floodplain_Pe_ik h1 h2 g1 g2 g3 g4 g5 g6 = Floodplain_Pe_ik h2 h1 g1 g2 g3 g4 g5 g6 := by
  simp only [Floodplain_Pe_ik]
  rw [add_comm h1 h2]

lemma Floodplain_B_symm (h1 h2 g1 g2 g3 g4 g5 g6 : ℝ) :
    Floodplain_B_ik h1 h2 g1 g2 g3 g4 g5 g6 = Floodplain_B_ik h2 h1 g1 g2 g3 g4 g5 g6 := by
  simp only [Floodplain_B_ik]
  rw [add_comm h1 h2]

end NGeometry
namespace NGeometry

/-- C2 counterexample: Parabolic_B_ik does not factor through the
clamped mean depth.  With height y_max = 1 and width b = 1, the mean
depth 3 clamps to 1, yet the top width at mean depth 3 is the square
root of 3 while the top width at mean depth 1 is 1. -/
theorem parabolic_B_ignores_upper_clamp :
    clamp0 ((3 + 3) / 2 : ℝ) 1 = 1 ∧
    Parabolic_B_ik 3 3 1 1 ≠ Parabolic_B_ik 1 1 1 1 := by
  constructor
  · simp only [clamp0]
    norm_num
  · have h1 : Parabolic_B_ik 3 3 1 1 = Real.sqrt 3 := by
      simp only [Parabolic_B_ik]
      norm_num
    have h2 : Parabolic_B_ik 1 1 1 1 = 1 := by
      simp only [Parabolic_B_ik]
      norm_num
    rw [h1, h2]
    have h3 : Real.sqrt 1 < Real.sqrt 3 := Real.sqrt_lt_sqrt (by norm_num) (by norm_num)
    rw [Real.sqrt_one] at h3
    exact fun h => absurd h.symm (ne_of_lt h3)

/-- C2 (amended): every shape evaluator except Parabolic_B_ik depends on
the two junction depths only through the clamped mean depth
clamp0 (mean) y_max, with y_max the shape height or diameter g1 (for the
depth-independent evaluators the statement is trivial); Parabolic_B_ik
clamps the mean depth below at 0 but not above at y_max. -/
theorem depth_clamp_invariant :
    (∀ h1 h2 g1 : ℝ,
      Circular_A_ik h1 h2 g1
        = Circular_A_ik (clamp0 ((h1 + h2) / 2) g1) (clamp0 ((h1 + h2) / 2) g1) g1) ∧
    (∀ h1 h2 g1 : ℝ,
      Circular_Pe_ik h1 h2 g1
        = Circular_Pe_ik (clamp0 ((h1 + h2) / 2) g1) (clamp0 ((h1 + h2) / 2) g1) g1) ∧
    (∀ h1 h2 g1 g2 : ℝ,
      Circular_B_ik h1 h2 g1 g2
        = Circular_B_ik (clamp0 ((h1 + h2) / 2) g1) (clamp0 ((h1 + h2) / 2) g1) g1 g2) ∧
    (∀ h1 h2 g1 g2 : ℝ,
      Rect_Closed_A_ik h1 h2 g1 g2
        = Rect_Closed_A_ik (clamp0 ((h1 + h2) / 2) g1) (clamp0 ((h1 + h2) / 2) g1) g1 g2) ∧
    (∀ h1 h2 g1 g2 : ℝ,
      Rect_Closed_Pe_ik h1 h2 g1 g2
        = Rect_Closed_Pe_ik (clamp0 ((h1 + h2) / 2) g1) (clamp0 ((h1 + h2) / 2) g1) g1 g2) ∧
    (∀ h1 h2 g1 g2 g3 : ℝ,
      Rect_Closed_B_ik h1 h2 g1 g2 g3
        = Rect_Closed_B_ik (clamp0 ((h1 + h2) / 2) g1) (clamp0 ((h1 + h2) / 2) g1) g1 g2 g3) ∧
    (∀ h1 h2 g1 g2 : ℝ,
      Rect_Open_A_ik h1 h2 g1 g2
        = Rect_Open_A_ik (clamp0 ((h1 + h2) / 2) g1) (clamp0 ((h1 + h2) / 2) g1) g1 g2) ∧
    (∀ h1 h2 g1 g2 : ℝ,
      Rect_Open_Pe_ik h1 h2 g1 g2
        = Rect_Open_Pe_ik (clamp0 ((h1 + h2) / 2) g1) (clamp0 ((h1 + h2) / 2) g1) g1 g2) ∧
    (∀ h1 h2 g1 g2 : ℝ,
      Rect_Open_B_ik h1 h2 g1 g2
        = Rect_Open_B_ik (clamp0 ((h1 + h2) / 2) g1) (clamp0 ((h1 + h2) / 2) g1) g1 g2) ∧
    (∀ h1 h2 g1 g2 : ℝ,
      Triangular_A_ik h1 h2 g1 g2
        = Triangular_A_ik (clamp0 ((h1 + h2) / 2) g1) (clamp0 ((h1 + h2) / 2) g1) g1 g2) ∧
    (∀ h1 h2 g1 g2 : ℝ,
      Triangular_Pe_ik h1 h2 g1 g2
        = Triangular_Pe_ik (clamp0 ((h1 + h2) / 2) g1) (clamp0 ((h1 + h2) / 2) g1) g1 g2) ∧
    (∀ h1 h2 g1 g2 : ℝ,
      Triangular_B_ik h1 h2 g1 g2
        = Triangular_B_ik (clamp0 ((h1 + h2) / 2) g1) (clamp0 ((h1 + h2) / 2) g1) g1 g2) ∧
    (∀ h1 h2 g1 g2 g3 : ℝ,
      Trapezoidal_A_ik h1 h2 g1 g2 g3
        = Trapezoidal_A_ik (clamp0 ((h1 + h2) / 2) g1) (clamp0 ((h1 + h2) / 2) g1) g1 g2 g3) ∧
    (∀ h1 h2 g1 g2 g3 : ℝ,
      Trapezoidal_Pe_ik h1 h2 g1 g2 g3
        = Trapezoidal_Pe_ik (clamp0 ((h1 + h2) / 2) g1) (clamp0 ((h1 + h2) / 2) g1) g1 g2 g3) ∧
    (∀ h1 h2 g1 g2 g3 : ℝ,
      Trapezoidal_B_ik h1 h2 g1 g2 g3
        = Trapezoidal_B_ik (clamp0 ((h1 + h2) / 2) g1) (clamp0 ((h1 + h2) / 2) g1) g1 g2 g3) ∧
    (∀ h1 h2 g1 g2 : ℝ,
      Parabolic_A_ik h1 h2 g1 g2
        = Parabolic_A_ik (clamp0 ((h1 + h2) / 2) g1) (clamp0 ((h1 + h2) / 2) g1) g1 g2) ∧
    (∀ h1 h2 g1 g2 : ℝ,
      Parabolic_Pe_ik h1 h2 g1 g2
        = Parabolic_Pe_ik (clamp0 ((h1 + h2) / 2) g1) (clamp0 ((h1 + h2) / 2) g1) g1 g2) ∧
    (∀ h1 h2 g1 g2 : ℝ,
      Elliptical_A_ik h1 h2 g1 g2
        = Elliptical_A_ik (clamp0 ((h1 + h2) / 2) g1) (clamp0 ((h1 + h2) / 2) g1) g1 g2) ∧
    (∀ h1 h2 g1 g2 : ℝ,
      Elliptical_B_ik h1 h2 g1 g2
        = Elliptical_B_ik (clamp0 ((h1 + h2) / 2) g1) (clamp0 ((h1 + h2) / 2) g1) g1 g2) ∧
    (∀ h1 h2 g1 g2 : ℝ,
      Wide_A_ik h1 h2 g1 g2
        = Wide_A_ik (clamp0 ((h1 + h2) / 2) g1) (clamp0 ((h1 + h2) / 2) g1) g1 g2) ∧
    (∀ h1 h2 g1 g2 : ℝ,
      Wide_Pe_ik h1 h2 g1 g2
        = Wide_Pe_ik (clamp0 ((h1 + h2) / 2) g1) (clamp0 ((h1 + h2) / 2) g1) g1 g2) ∧
    (∀ h1 h2 g1 g2 : ℝ,
      Wide_B_ik h1 h2 g1 g2
        = Wide_B_ik (clamp0 ((h1 + h2) / 2) g1) (clamp0 ((h1 + h2) / 2) g1) g1 g2) ∧
    (∀ h1 h2 g1 g2 : ℝ,
      Force_Main_A_ik h1 h2 g1 g2
        = Force_Main_A_ik (clamp0 ((h1 + h2) / 2) g1) (clamp0 ((h1 + h2) / 2) g1) g1 g2) ∧
    (∀ h1 h2 g1 g2 : ℝ,
      Force_Main_Pe_ik h1 h2 g1 g2
        = Force_Main_Pe_ik (clamp0 ((h1 + h2) / 2) g1) (clamp0 ((h1 + h2) / 2) g1) g1 g2) ∧
    (∀ h1 h2 g1 g2 : ℝ,
      Force_Main_B_ik h1 h2 g1 g2
        = Force_Main_B_ik (clamp0 ((h1 + h2) / 2) g1) (clamp0 ((h1 + h2) / 2) g1) g1 g2) ∧
    (∀ h1 h2 g1 g2 g3 g4 g5 g6 : ℝ,
      Floodplain_A_ik h1 h2 g1 g2 g3 g4 g5 g6
        = Floodplain_A_ik (clamp0 ((h1 + h2) / 2) g1) (clamp0 ((h1 + h2) / 2) g1) g1 g2 g3 g4 g5 g6) ∧
    (∀ h1 h2 g1 g2 g3 g4 g5 g6 : ℝ,
      Floodplain_Pe_ik h1 h2 g1 g2 g3 g4 g5 g6
        = Floodplain_Pe_ik (clamp0 ((h1 + h2) / 2) g1) (clamp0 ((h1 + h2) / 2) g1) g1 g2 g3 g4 g5 g6) ∧
    (∀ h1 h2 g1 g2 g3 g4 g5 g6 : ℝ,
      Floodplain_B_ik h1 h2 g1 g2 g3 g4 g5 g6
        = Floodplain_B_ik (clamp0 ((h1 + h2) / 2) g1) (clamp0 ((h1 + h2) / 2) g1) g1 g2 g3 g4 g5 g6) ∧
    (∀ h1 h2 g1 g2 : ℝ,
      Parabolic_B_ik h1 h2 g1 g2
        = Parabolic_B_ik (if (h1 + h2) / 2 < 0 then 0 else (h1 + h2) / 2)
            (if (h1 + h2) / 2 < 0 then 0 else (h1 + h2) / 2) g1 g2) :=
  ⟨Circular_A_clamp, Circular_Pe_clamp, Circular_B_clamp, Rect_Closed_A_clamp, Rect_Closed_Pe_clamp, Rect_Closed_B_clamp, Rect_Open_A_clamp, Rect_Open_Pe_clamp, Rect_Open_B_clamp, Triangular_A_clamp, Triangular_Pe_clamp, Triangular_B_clamp, Trapezoidal_A_clamp, Trapezoidal_Pe_clamp, Trapezoidal_B_clamp, Parabolic_A_clamp, Parabolic_Pe_clamp, Elliptical_A_clamp, Elliptical_B_clamp, Wide_A_clamp, Wide_Pe_clamp, Wide_B_clamp, Force_Main_A_clamp, Force_Main_Pe_clamp, Force_Main_B_clamp, Floodplain_A_clamp, Floodplain_Pe_clamp, Floodplain_B_clamp, Parabolic_B_lower_clamp⟩

/-- C10: every Area, Perimeter, and TopWidth evaluator of every shape is
symmetric in its two depth arguments, since each reads the depths only
through their arithmetic mean. -/
theorem depth_symmetry :
    (∀ h1 h2 g1 : ℝ, Circular_A_ik h1 h2 g1 = Circular_A_ik h2 h1 g1) ∧
    (∀ h1 h2 g1 : ℝ, Circular_Pe_ik h1 h2 g1 = Circular_Pe_ik h2 h1 g1) ∧
    (∀ h1 h2 g1 g2 : ℝ, Circular_B_ik h1 h2 g1 g2 = Circular_B_ik h2 h1 g1 g2) ∧
    (∀ h1 h2 g1 g2 : ℝ, Rect_Closed_A_ik h1 h2 g1 g2 = Rect_Closed_A_ik h2 h1 g1 g2) ∧
    (∀ h1 h2 g1 g2 : ℝ, Rect_Closed_Pe_ik h1 h2 g1 g2 = Rect_Closed_Pe_ik h2 h1 g1 g2) ∧
    (∀ h1 h2 g1 g2 g3 : ℝ, Rect_Closed_B_ik h1 h2 g1 g2 g3 = Rect_Closed_B_ik h2 h1 g1 g2 g3) ∧
    (∀ h1 h2 g1 g2 : ℝ, Rect_Open_A_ik h1 h2 g1 g2 = Rect_Open_A_ik h2 h1 g1 g2) ∧
    (∀ h1 h2 g1 g2 : ℝ, Rect_Open_Pe_ik h1 h2 g1 g2 = Rect_Open_Pe_ik h2 h1 g1 g2) ∧
    (∀ h1 h2 g1 g2 : ℝ, Rect_Open_B_ik h1 h2 g1 g2 = Rect_Open_B_ik h2 h1 g1 g2) ∧
    (∀ h1 h2 g1 g2 : ℝ, Triangular_A_ik h1 h2 g1 g2 = Triangular_A_ik h2 h1 g1 g2) ∧
    (∀ h1 h2 g1 g2 : ℝ, Triangular_Pe_ik h1 h2 g1 g2 = Triangular_Pe_ik h2 h1 g1 g2) ∧
    (∀ h1 h2 g1 g2 : ℝ, Triangular_B_ik h1 h2 g1 g2 = Triangular_B_ik h2 h1 g1 g2) ∧
    (∀ h1 h2 g1 g2 g3 : ℝ, Trapezoidal_A_ik h1 h2 g1 g2 g3 = Trapezoidal_A_ik h2 h1 g1 g2 g3) ∧
    (∀ h1 h2 g1 g2 g3 : ℝ, Trapezoidal_Pe_ik h1 h2 g1 g2 g3 = Trapezoidal_Pe_ik h2 h1 g1 g2 g3) ∧
    (∀ h1 h2 g1 g2 g3 : ℝ, Trapezoidal_B_ik h1 h2 g1 g2 g3 = Trapezoidal_B_ik h2 h1 g1 g2 g3) ∧
    (∀ h1 h2 g1 g2 : ℝ, Parabolic_A_ik h1 h2 g1 g2 = Parabolic_A_ik h2 h1 g1 g2) ∧
    (∀ h1 h2 g1 g2 : ℝ, Parabolic_Pe_ik h1 h2 g1 g2 = Parabolic_Pe_ik h2 h1 g1 g2) ∧
    (∀ h1 h2 g1 g2 : ℝ, Parabolic_B_ik h1 h2 g1 g2 = Parabolic_B_ik h2 h1 g1 g2) ∧
    (∀ h1 h2 g1 g2 : ℝ, Elliptical_A_ik h1 h2 g1 g2 = Elliptical_A_ik h2 h1 g1 g2) ∧
    (∀ h1 h2 g1 g2 : ℝ, Elliptical_B_ik h1 h2 g1 g2 = Elliptical_B_ik h2 h1 g1 g2) ∧
    (∀ h1 h2 g1 g2 : ℝ, Wide_A_ik h1 h2 g1 g2 = Wide_A_ik h2 h1 g1 g2) ∧
    (∀ h1 h2 g1 g2 : ℝ, Wide_Pe_ik h1 h2 g1 g2 = Wide_Pe_ik h2 h1 g1 g2) ∧
    (∀ h1 h2 g1 g2 : ℝ, Wide_B_ik h1 h2 g1 g2 = Wide_B_ik h2 h1 g1 g2) ∧
    (∀ h1 h2 g1 g2 : ℝ, Force_Main_A_ik h1 h2 g1 g2 = Force_Main_A_ik h2 h1 g1 g2) ∧
    (∀ h1 h2 g1 g2 : ℝ, Force_Main_Pe_ik h1 h2 g1 g2 = Force_Main_Pe_ik h2 h1 g1 g2) ∧
    (∀ h1 h2 g1 g2 : ℝ, Force_Main_B_ik h1 h2 g1 g2 = Force_Main_B_ik h2 h1 g1 g2) ∧
    (∀ h1 h2 g1 g2 g3 g4 g5 g6 : ℝ, Floodplain_A_ik h1 h2 g1 g2 g3 g4 g5 g6 = Floodplain_A_ik h2 h1 g1 g2 g3 g4 g5 g6) ∧
    (∀ h1 h2 g1 g2 g3 g4 g5 g6 : ℝ, Floodplain_Pe_ik h1 h2 g1 g2 g3 g4 g5 g6 = Floodplain_Pe_ik h2 h1 g1 g2 g3 g4 g5 g6) ∧
    (∀ h1 h2 g1 g2 g3 g4 g5 g6 : ℝ, Floodplain_B_ik h1 h2 g1 g2 g3 g4 g5 g6 = Floodplain_B_ik h2 h1 g1 g2 g3 g4 g5 g6) :=
  ⟨Circular_A_symm, Circular_Pe_symm, Circular_B_symm, Rect_Closed_A_symm, Rect_Closed_Pe_symm, Rect_Closed_B_symm, Rect_Open_A_symm, Rect_Open_Pe_symm, Rect_Open_B_symm, Triangular_A_symm, Triangular_Pe_symm, Triangular_B_symm, Trapezoidal_A_symm, Trapezoidal_Pe_symm, Trapezoidal_B_symm, Parabolic_A_symm, Parabolic_Pe_symm, Parabolic_B_symm, Elliptical_A_symm, Elliptical_B_symm, Wide_A_symm, Wide_Pe_symm, Wide_B_symm, Force_Main_A_symm, Force_Main_Pe_symm, Force_Main_B_symm, Floodplain_A_symm, Floodplain_Pe_symm, Floodplain_B_symm⟩

/-- C4: the ten per-shape hydraulic radius functions all compute the one
shared rule radius, which returns A / Pe when Pe is positive and 0
otherwise; in particular every one of them returns 0 at Pe = 0. -/
theorem hydraulic_radius_common_rule :
    (∀ A Pe : ℝ, Circular_R_ik A Pe = radius A Pe) ∧
    (∀ A Pe : ℝ, Rect_Closed_R_ik A Pe = radius A Pe) ∧
    (∀ A Pe : ℝ, Rect_Open_R_ik A Pe = radius A Pe) ∧
    (∀ A Pe : ℝ, Triangular_R_ik A Pe = radius A Pe) ∧
    (∀ A Pe : ℝ, Trapezoidal_R_ik A Pe = radius A Pe) ∧
    (∀ A Pe : ℝ, Parabolic_R_ik A Pe = radius A Pe) ∧
    (∀ A Pe : ℝ, Elliptical_R_ik A Pe = radius A Pe) ∧
    (∀ A Pe : ℝ, Wide_R_ik A Pe = radius A Pe) ∧
    (∀ A Pe : ℝ, Force_Main_R_ik A Pe = radius A Pe) ∧
    (∀ A Pe : ℝ, Floodplain_R_ik A Pe = radius A Pe) ∧
    (∀ A : ℝ, radius A 0 = 0) :=
  ⟨fun _ _ => rfl, fun _ _ => rfl, fun _ _ => rfl, fun _ _ => rfl, fun _ _ => rfl, fun _ _ => rfl, fun _ _ => rfl, fun _ _ => rfl, fun _ _ => rfl, fun _ _ => rfl,
    fun A => by simp only [radius]; norm_num⟩

end NGeometry

namespace NGeometry

/-! ### Pointwise evaluation of the floodplain shape on each branch -/

lemma Floodplain_A_eval_lower {y g1 g2 g3 g4 g5 g6 : ℝ} (h0 : 0 ≤ y)
    (h1 : y ≤ g1) (h2 : y < g2) :
    Floodplain_A_ik y y g1 g2 g3 g4 g5 g6 = y * (g3 + g5 * y) := by
  simp only [Floodplain_A_ik, add_self_div_two]
  split_ifs <;> first | (exfalso; linarith) | ring1

lemma Floodplain_A_eval_upper {y g1 g2 g3 g4 g5 g6 : ℝ} (h0 : 0 ≤ y)
    (h1 : y ≤ g1) (h2 : g2 ≤ y) :
    Floodplain_A_ik y y g1 g2 g3 g4 g5 g6
      = g2 * (g3 + g5 * g2) + (y - g2) * (g4 + g6 * (y - g2)) := by
  simp only [Floodplain_A_ik, add_self_div_two]
  split_ifs <;> first | (exfalso; linarith) | ring1

lemma Floodplain_Pe_eval_lower {y g1 g2 g3 g4 g5 g6 : ℝ} (h0 : 0 ≤ y)
    (h1 : y ≤ g1) (h2 : y < g2) :
    Floodplain_Pe_ik y y g1 g2 g3 g4 g5 g6
      = g3 + 2 * y * Real.sqrt (1 + g5 ^ 2) := by
  simp only [Floodplain_Pe_ik, add_self_div_two]
  split_ifs <;> first | (exfalso; linarith) | ring1

lemma Floodplain_Pe_eval_upper {y g1 g2 g3 g4 g5 g6 : ℝ} (h0 : 0 ≤ y)
    (h1 : y ≤ g1) (h2 : g2 ≤ y) :
    Floodplain_Pe_ik y y g1 g2 g3 g4 g5 g6
      = g3 + 2 * g2 * Real.sqrt (1 + g5 ^ 2) + (g4 - (g3 + 2 * g5 * g2))
          + 2 * (y - g2) * Real.sqrt (1 + g6 ^ 2) := by
  simp only [Floodplain_Pe_ik, add_self_div_two]
  split_ifs <;> first | (exfalso; linarith) | ring1

lemma Floodplain_B_eval_lower {y g1 g2 g3 g4 g5 g6 : ℝ} (h0 : 0 ≤ y)
    (h1 : y ≤ g1) (h2 : y < g2) :
    Floodplain_B_ik y y g1 g2 g3 g4 g5 g6 = g3 + 2 * g5 * y := by
  simp only [Floodplain_B_ik, add_self_div_two]
  split_ifs <;> first | (exfalso; linarith) | ring1

lemma Floodplain_B_eval_upper {y g1 g2 g3 g4 g5 g6 : ℝ} (h0 : 0 ≤ y)
    (h1 : y ≤ g1) (h2 : g2 ≤ y) :
    Floodplain_B_ik y y g1 g2 g3 g4 g5 g6 = g4 + 2 * g6 * (y - g2) := by
  simp only [Floodplain_B_ik, add_self_div_two]
  split_ifs <;> first | (exfalso; linarith) | ring1

/-- C1 (amended): for transition depth 0 < y_mid < y_max the floodplain
area is always continuous from below at the transition; the perimeter
and top width are continuous there exactly under the matching condition
b_upper = b_lower + 2 m_lower y_mid, in which case both top width pieces
take that common value at y = y_mid. -/
theorem floodplain_transition_matched (g1 g2 g3 g4 g5 g6 : ℝ)
    (hmid : 0 < g2) (hmax : g2 < g1) :
    Filter.Tendsto (fun y => Floodplain_A_ik y y g1 g2 g3 g4 g5 g6)
      (nhdsWithin g2 (Set.Iio g2)) (nhds (Floodplain_A_ik g2 g2 g1 g2 g3 g4 g5 g6)) ∧
    (g4 = g3 + 2 * g5 * g2 →
      Filter.Tendsto (fun y => Floodplain_Pe_ik y y g1 g2 g3 g4 g5 g6)
        (nhdsWithin g2 (Set.Iio g2)) (nhds (Floodplain_Pe_ik g2 g2 g1 g2 g3 g4 g5 g6)) ∧
      Filter.Tendsto (fun y => Floodplain_B_ik y y g1 g2 g3 g4 g5 g6)
        (nhdsWithin g2 (Set.Iio g2)) (nhds (Floodplain_B_ik g2 g2 g1 g2 g3 g4 g5 g6)) ∧
      Floodplain_B_ik g2 g2 g1 g2 g3 g4 g5 g6 = g3 + 2 * g5 * g2) := by
  have hmem : Set.Ioo 0 g2 ∈ nhdsWithin g2 (Set.Iio g2) :=
    Ioo_mem_nhdsWithin_Iio' hmid
  refine ⟨?_, fun hb => ⟨?_, ?_, ?_⟩⟩
  · have hval : Floodplain_A_ik g2 g2 g1 g2 g3 g4 g5 g6 = g2 * (g3 + g5 * g2) := by
      rw [Floodplain_A_eval_upper hmid.le hmax.le le_rfl]; ring
    rw [hval]
    have hpoly : Filter.Tendsto (fun y : ℝ => y * (g3 + g5 * y))
        (nhdsWithin g2 (Set.Iio g2)) (nhds (g2 * (g3 + g5 * g2))) :=
      ((Continuous.tendsto (by fun_prop) g2).mono_left nhdsWithin_le_nhds)
    refine hpoly.congr' ?_
    exact Filter.eventuallyEq_of_mem hmem fun y hy =>
      (Floodplain_A_eval_lower hy.1.le (le_trans hy.2.le hmax.le) hy.2).symm
  · have hval : Floodplain_Pe_ik g2 g2 g1 g2 g3 g4 g5 g6
        = g3 + 2 * g2 * Real.sqrt (1 + g5 ^ 2) := by
      rw [Floodplain_Pe_eval_upper hmid.le hmax.le le_rfl, hb]; ring
    rw [hval]
    have hpoly : Filter.Tendsto (fun y : ℝ => g3 + 2 * y * Real.sqrt (1 + g5 ^ 2))
        (nhdsWithin g2 (Set.Iio g2)) (nhds (g3 + 2 * g2 * Real.sqrt (1 + g5 ^ 2))) :=
      ((Continuous.tendsto (by fun_prop) g2).mono_left nhdsWithin_le_nhds)
    refine hpoly.congr' ?_
    exact Filter.eventuallyEq_of_mem hmem fun y hy =>
      (Floodplain_Pe_eval_lower hy.1.le (le_trans hy.2.le hmax.le) hy.2).symm
  · have hval : Floodplain_B_ik g2 g2 g1 g2 g3 g4 g5 g6 = g3 + 2 * g5 * g2 := by
      rw [Floodplain_B_eval_upper hmid.le hmax.le le_rfl, hb]; ring
    rw [hval]
    have hpoly : Filter.Tendsto (fun y : ℝ => g3 + 2 * g5 * y)
        (nhdsWithin g2 (Set.Iio g2)) (nhds (g3 + 2 * g5 * g2)) :=
      ((Continuous.tendsto (by fun_prop) g2).mono_left nhdsWithin_le_nhds)
    refine hpoly.congr' ?_
    exact Filter.eventuallyEq_of_mem hmem fun y hy =>
      (Floodplain_B_eval_lower hy.1.le (le_trans hy.2.le hmax.le) hy.2).symm
  · rw [Floodplain_B_eval_upper hmid.le hmax.le le_rfl, hb]; ring

/-- C1 witness: the matched continuity theorem applied at the concrete
parameters y_max = 2, y_mid = 1, b_lower = 1, b_upper = 3, m_lower = 1,
m_upper = 2, which satisfy b_upper = b_lower + 2 m_lower y_mid. -/
theorem floodplain_transition_matched_witness :
    Filter.Tendsto (fun y => Floodplain_A_ik y y 2 1 1 3 1 2)
      (nhdsWithin 1 (Set.Iio 1)) (nhds (Floodplain_A_ik 1 1 2 1 1 3 1 2)) ∧
    Filter.Tendsto (fun y => Floodplain_Pe_ik y y 2 1 1 3 1 2)
      (nhdsWithin 1 (Set.Iio 1)) (nhds (Floodplain_Pe_ik 1 1 2 1 1 3 1 2)) ∧
    Filter.Tendsto (fun y => Floodplain_B_ik y y 2 1 1 3 1 2)
      (nhdsWithin 1 (Set.Iio 1)) (nhds (Floodplain_B_ik 1 1 2 1 1 3 1 2)) ∧
    Floodplain_B_ik 1 1 2 1 1 3 1 2 = 1 + 2 * 1 * 1 := by
  have h := floodplain_transition_matched 2 1 1 3 1 2 (by norm_num) (by norm_num)
  have h2 := h.2 (by norm_num)
  exact ⟨h.1, h2.1, h2.2.1, h2.2.2⟩

/-- C1 counterexample: with y_max = 2, y_mid = 1, b_lower = 1,
b_upper = 5, m_lower = 1, m_upper = 0, the top width tends to 3 as the
depth approaches the transition from below, while its value at the
transition is 5, so it does not tend to the upper branch value. -/
theorem floodplain_B_transition_jump :
    Filter.Tendsto (fun y => Floodplain_B_ik y y 2 1 1 5 1 0)
      (nhdsWithin 1 (Set.Iio 1)) (nhds 3) ∧
    Floodplain_B_ik 1 1 2 1 1 5 1 0 = 5 ∧
    ¬ Filter.Tendsto (fun y => Floodplain_B_ik y y 2 1 1 5 1 0)
      (nhdsWithin 1 (Set.Iio 1)) (nhds 5) := by
  have hmem : Set.Ioo (0:ℝ) 1 ∈ nhdsWithin (1:ℝ) (Set.Iio 1) :=
    Ioo_mem_nhdsWithin_Iio' (by norm_num)
  have ha : Filter.Tendsto (fun y => Floodplain_B_ik y y 2 1 1 5 1 0)
      (nhdsWithin 1 (Set.Iio 1)) (nhds 3) := by
    have hpoly : Filter.Tendsto (fun y : ℝ => 1 + 2 * 1 * y)
        (nhdsWithin (1:ℝ) (Set.Iio 1)) (nhds (1 + 2 * 1 * 1)) :=
      ((Continuous.tendsto (by fun_prop) 1).mono_left nhdsWithin_le_nhds)
    rw [show (3:ℝ) = 1 + 2 * 1 * 1 by norm_num]
    refine hpoly.congr' ?_
    exact Filter.eventuallyEq_of_mem hmem fun y hy =>
      (Floodplain_B_eval_lower hy.1.le (by linarith [hy.2]) hy.2).symm
  have hval : Floodplain_B_ik 1 1 2 1 1 5 1 0 = 5 := by
    rw [Floodplain_B_eval_upper (by norm_num) (by norm_num) le_rfl]; ring
  refine ⟨ha, hval, fun h => ?_⟩
  have := tendsto_nhds_unique h ha
  norm_num at this

end NGeometry

namespace NGeometry

/-! ### Pointwise evaluation of the simple shapes at an in-range depth -/

lemma Circular_A_eval {y d : ℝ} (h0 : 0 ≤ y) (h1 : y ≤ d) (hd : 0 < d) :
    Circular_A_ik y y d
      = (d / 2) ^ 2 * (Real.arccos (1 - y / (d / 2))
          - Real.cos (Real.arccos (1 - y / (d / 2)))
            * Real.sin (Real.arccos (1 - y / (d / 2)))) := by
  simp only [Circular_A_ik, add_self_div_two]
  have hr : 0 < d / 2 := by linarith
  have hphi0 : 0 ≤ y / (d / 2) := div_nonneg h0 hr.le
  have hphi2 : y / (d / 2) ≤ 2 := by
    rw [div_le_iff₀ hr]; linarith
  split_ifs <;> first | (exfalso; linarith) | rfl

lemma Rect_Closed_A_eval {y ymax b : ℝ} (h0 : 0 ≤ y) (h1 : y ≤ ymax) :
    Rect_Closed_A_ik y y ymax b = y * b := by
  simp only [Rect_Closed_A_ik, add_self_div_two]
  split_ifs <;> first | (exfalso; linarith) | rfl

lemma Rect_Open_A_eval {y ymax b : ℝ} (h0 : 0 ≤ y) (h1 : y ≤ ymax) :
    Rect_Open_A_ik y y ymax b = y * b := by
  simp only [Rect_Open_A_ik, add_self_div_two]
  split_ifs <;> first | (exfalso; linarith) | rfl

lemma Triangular_A_eval {y ymax m : ℝ} (h0 : 0 ≤ y) (h1 : y ≤ ymax) :
    Triangular_A_ik y y ymax m = m * y ^ 2 := by
  simp only [Triangular_A_ik, add_self_div_two]
  split_ifs <;> first | (exfalso; linarith) | rfl

lemma Trapezoidal_A_eval {y ymax b m : ℝ} (h0 : 0 ≤ y) (h1 : y ≤ ymax) :
    Trapezoidal_A_ik y y ymax b m = y * (b + m * y) := by
  simp only [Trapezoidal_A_ik, add_self_div_two]
  split_ifs <;> first | (exfalso; linarith) | rfl

lemma Wide_A_eval {y ymax b : ℝ} (h0 : 0 ≤ y) (h1 : y ≤ ymax) :
    Wide_A_ik y y ymax b = y * b := by
  simp only [Wide_A_ik, add_self_div_two]
  split_ifs <;> first | (exfalso; linarith) | rfl

/-- Monotonicity of the circular area in the effective depth. -/
lemma circular_area_mono {d y1 y2 : ℝ} (hd : 0 ≤ d) (h0 : 0 ≤ y1)
    (h12 : y1 ≤ y2) (h2 : y2 ≤ d) :
    Circular_A_ik y1 y1 d ≤ Circular_A_ik y2 y2 d := by
  rcases eq_or_lt_of_le hd with hd0 | hdpos
  · have hy2 : y2 = 0 := le_antisymm (hd0 ▸ h2) (by linarith)
    have hy1 : y1 = 0 := le_antisymm (by linarith) h0
    rw [hy1, hy2]
  · rw [Circular_A_eval h0 (by linarith) hdpos,
      Circular_A_eval (by linarith) h2 hdpos]
    have hr : 0 < d / 2 := by linarith
    have hdiv : y1 / (d / 2) ≤ y2 / (d / 2) := by gcongr
    have hth : Real.arccos (1 - y1 / (d / 2)) ≤ Real.arccos (1 - y2 / (d / 2)) :=
      arccos_anti (by linarith)
    exact mul_le_mul_of_nonneg_left (sub_cos_sin_mono hth) (sq_nonneg _)

/-- Monotonicity of the floodplain area in the effective depth. -/
lemma floodplain_area_mono {g1 g2 g3 g4 g5 g6 y1 y2 : ℝ}
    (hb1 : 0 ≤ g3) (hb2 : 0 ≤ g4) (hm1 : 0 ≤ g5) (hm2 : 0 ≤ g6)
    (h0 : 0 ≤ y1) (h12 : y1 ≤ y2) (h2 : y2 ≤ g1) :
    Floodplain_A_ik y1 y1 g1 g2 g3 g4 g5 g6
      ≤ Floodplain_A_ik y2 y2 g1 g2 g3 g4 g5 g6 := by
  rcases lt_or_le y1 g2 with hl1 | hu1
  · rcases lt_or_le y2 g2 with hl2 | hu2
    · rw [Floodplain_A_eval_lower h0 (by linarith) hl1,
        Floodplain_A_eval_lower (by linarith) h2 hl2]
      exact quad_mono hb1 hm1 h0 h12
    · rw [Floodplain_A_eval_lower h0 (by linarith) hl1,
        Floodplain_A_eval_upper (by linarith) h2 hu2]
      have step1 : y1 * (g3 + g5 * y1) ≤ g2 * (g3 + g5 * g2) :=
        quad_mono hb1 hm1 h0 (by linarith)
      have step2 : 0 ≤ (y2 - g2) * (g4 + g6 * (y2 - g2)) :=
        quad_nonneg (by linarith) hb2 hm2
      linarith
  · rw [Floodplain_A_eval_upper h0 (by linarith) hu1,
      Floodplain_A_eval_upper (by linarith) h2 (by linarith)]
    have step : (y1 - g2) * (g4 + g6 * (y1 - g2))
        ≤ (y2 - g2) * (g4 + g6 * (y2 - g2)) :=
      quad_mono hb2 hm2 (by linarith) (by linarith)
    linarith

/-- C6: for the Circular, RectClosed, RectOpen, Triangular, Trapezoidal,
Wide, and Floodplain shapes with nonnegative parameters, the area
evaluated at equal junction depths is monotone non-decreasing in the
effective depth over the interval from 0 to the shape height. -/
theorem area_monotone :
    (∀ d y1 y2 : ℝ, 0 ≤ d → 0 ≤ y1 → y1 ≤ y2 → y2 ≤ d →
      Circular_A_ik y1 y1 d ≤ Circular_A_ik y2 y2 d) ∧
    (∀ ymax b y1 y2 : ℝ, 0 ≤ b → 0 ≤ y1 → y1 ≤ y2 → y2 ≤ ymax →
      Rect_Closed_A_ik y1 y1 ymax b ≤ Rect_Closed_A_ik y2 y2 ymax b) ∧
    (∀ ymax b y1 y2 : ℝ, 0 ≤ b → 0 ≤ y1 → y1 ≤ y2 → y2 ≤ ymax →
      Rect_Open_A_ik y1 y1 ymax b ≤ Rect_Open_A_ik y2 y2 ymax b) ∧
    (∀ ymax m y1 y2 : ℝ, 0 ≤ m → 0 ≤ y1 → y1 ≤ y2 → y2 ≤ ymax →
      Triangular_A_ik y1 y1 ymax m ≤ Triangular_A_ik y2 y2 ymax m) ∧
    (∀ ymax b m y1 y2 : ℝ, 0 ≤ b → 0 ≤ m → 0 ≤ y1 → y1 ≤ y2 → y2 ≤ ymax →
      Trapezoidal_A_ik y1 y1 ymax b m ≤ Trapezoidal_A_ik y2 y2 ymax b m) ∧
    (∀ ymax b y1 y2 : ℝ, 0 ≤ b → 0 ≤ y1 → y1 ≤ y2 → y2 ≤ ymax →
      Wide_A_ik y1 y1 ymax b ≤ Wide_A_ik y2 y2 ymax b) ∧
    (∀ g1 g2 g3 g4 g5 g6 y1 y2 : ℝ, 0 ≤ g3 → 0 ≤ g4 → 0 ≤ g5 → 0 ≤ g6 →
      0 ≤ y1 → y1 ≤ y2 → y2 ≤ g1 →
      Floodplain_A_ik y1 y1 g1 g2 g3 g4 g5 g6
        ≤ Floodplain_A_ik y2 y2 g1 g2 g3 g4 g5 g6) := by
  refine ⟨?_, ?_, ?_, ?_, ?_, ?_, ?_⟩
  · exact fun d y1 y2 hd h0 h12 h2 => circular_area_mono hd h0 h12 h2
  · intro ymax b y1 y2 hb h0 h12 h2
    rw [Rect_Closed_A_eval h0 (by linarith), Rect_Closed_A_eval (by linarith) h2]
    exact mul_le_mul_of_nonneg_right h12 hb
  · intro ymax b y1 y2 hb h0 h12 h2
    rw [Rect_Open_A_eval h0 (by linarith), Rect_Open_A_eval (by linarith) h2]
    exact mul_le_mul_of_nonneg_right h12 hb
  · intro ymax m y1 y2 hm h0 h12 h2
    rw [Triangular_A_eval h0 (by linarith), Triangular_A_eval (by linarith) h2]
    have : y1 ^ 2 ≤ y2 ^ 2 := by nlinarith
    exact mul_le_mul_of_nonneg_left this hm
  · intro ymax b m y1 y2 hb hm h0 h12 h2
    rw [Trapezoidal_A_eval h0 (by linarith), Trapezoidal_A_eval (by linarith) h2]
    exact quad_mono hb hm h0 h12
  · intro ymax b y1 y2 hb h0 h12 h2
    rw [Wide_A_eval h0 (by linarith), Wide_A_eval (by linarith) h2]
    exact mul_le_mul_of_nonneg_right h12 hb
  · exact fun g1 g2 g3 g4 g5 g6 y1 y2 hb1 hb2 hm1 hm2 h0 h12 h2 =>
      floodplain_area_mono hb1 hb2 hm1 hm2 h0 h12 h2

/-- C6 witness: the monotonicity theorem applied at concrete depths and
parameters for each of the seven shapes. -/
theorem area_monotone_witness :
    Circular_A_ik (1/2) (1/2) 2 ≤ Circular_A_ik 1 1 2 ∧
    Rect_Closed_A_ik (1/2) (1/2) 2 3 ≤ Rect_Closed_A_ik 1 1 2 3 ∧
    Rect_Open_A_ik (1/2) (1/2) 2 3 ≤ Rect_Open_A_ik 1 1 2 3 ∧
    Triangular_A_ik (1/2) (1/2) 2 3 ≤ Triangular_A_ik 1 1 2 3 ∧
    Trapezoidal_A_ik (1/2) (1/2) 2 3 4 ≤ Trapezoidal_A_ik 1 1 2 3 4 ∧
    Wide_A_ik (1/2) (1/2) 2 3 ≤ Wide_A_ik 1 1 2 3 ∧
    Floodplain_A_ik (1/2) (1/2) 2 1 1 3 1 2 ≤ Floodplain_A_ik 1 1 2 1 1 3 1 2 :=
  ⟨area_monotone.1 2 (1/2) 1 (by norm_num) (by norm_num) (by norm_num) (by norm_num),
   area_monotone.2.1 2 3 (1/2) 1 (by norm_num) (by norm_num) (by norm_num) (by norm_num),
   area_monotone.2.2.1 2 3 (1/2) 1 (by norm_num) (by norm_num) (by norm_num) (by norm_num),
   area_monotone.2.2.2.1 2 3 (1/2) 1 (by norm_num) (by norm_num) (by norm_num) (by norm_num),
   area_monotone.2.2.2.2.1 2 3 4 (1/2) 1 (by norm_num) (by norm_num) (by norm_num)
     (by norm_num) (by norm_num),
   area_monotone.2.2.2.2.2.1 2 3 (1/2) 1 (by norm_num) (by norm_num) (by norm_num)
     (by norm_num),
   area_monotone.2.2.2.2.2.2 2 1 1 3 1 2 (1/2) 1 (by norm_num) (by norm_num)
     (by norm_num) (by norm_num) (by norm_num) (by norm_num) (by norm_num)⟩

end NGeometry

namespace NGeometry

/-- C7: the closed rectangular top width takes exactly the value b below
the full height and exactly pslot times b at or above it, for any mean
depth; at height 1, width 1, slot ratio 1/1000, the full-depth top width
is 1/1000. -/
theorem rect_closed_top_width :
    (∀ h1 h2 ymax b pslot : ℝ, 0 < ymax →
      ((h1 + h2) / 2 < ymax → Rect_Closed_B_ik h1 h2 ymax b pslot = b) ∧
      (ymax ≤ (h1 + h2) / 2 → Rect_Closed_B_ik h1 h2 ymax b pslot = pslot * b)) ∧
    Rect_Closed_B_ik 1 1 1 1 (1/1000) = 1/1000 := by
  constructor
  · intro h1 h2 ymax b pslot hy
    constructor
    · intro hlt
      simp only [Rect_Closed_B_ik]
      split_ifs <;> first | rfl | linarith
    · intro hge
      simp only [Rect_Closed_B_ik]
      split_ifs <;> first | rfl | linarith
  · simp only [Rect_Closed_B_ik]
    norm_num

/-- C7 witness: the top width theorem applied at mean depth 1/2 (below
the full height 1, width 2, slot ratio 1/3) and at mean depth 2 (above
it). -/
theorem rect_closed_top_width_witness :
    Rect_Closed_B_ik (1/2) (1/2) 1 2 (1/3) = 2 ∧
    Rect_Closed_B_ik 2 2 1 2 (1/3) = (1/3) * 2 :=
  ⟨(rect_closed_top_width.1 (1/2) (1/2) 1 2 (1/3) (by norm_num)).1 (by norm_num),
   (rect_closed_top_width.1 2 2 1 2 (1/3) (by norm_num)).2 (by norm_num)⟩

/-- C9: the circular shape with diameter 1 at equal junction depths 1/2
(half full) yields area pi over 8, perimeter pi over 2, hydraulic radius
1/4, and top width 1 for every slot ratio. -/
theorem circular_half_full_values :
    Circular_A_ik (1/2) (1/2) 1 = Real.pi / 8 ∧
    Circular_Pe_ik (1/2) (1/2) 1 = Real.pi / 2 ∧
    Circular_R_ik (Real.pi / 8) (Real.pi / 2) = 1 / 4 ∧
    (∀ pslot : ℝ, Circular_B_ik (1/2) (1/2) 1 pslot = 1) := by
  refine ⟨?_, ?_, ?_, ?_⟩
  · simp only [Circular_A_ik]
    norm_num
    ring
  · simp only [Circular_Pe_ik]
    norm_num
  · simp only [Circular_R_ik]
    rw [if_pos (by positivity : Real.pi / 2 > 0)]
    rw [div_div_div_comm]
    norm_num [Real.pi_ne_zero]
  · intro pslot
    simp only [Circular_B_ik]
    norm_num

end NGeometry

namespace NGeometry

/-- The parabolic perimeter closed form is strictly positive at any
positive effective depth. -/
lemma parab_term_pos {v b : ℝ} (hv : 0 < v) (hb : 0 < b) :
    0 < (b / 2) * (Real.sqrt (1 + (4 * v / b) ^ 2)
      + (1 / (4 * v / b)) * Real.log (4 * v / b + Real.sqrt (1 + (4 * v / b) ^ 2))) := by
  have hx : 0 < 4 * v / b := div_pos (by linarith) hb
  have h1 : (1:ℝ) ≤ Real.sqrt (1 + (4 * v / b) ^ 2) := one_le_sqrt_one_add_sq _
  have h2 : 0 ≤ Real.log (4 * v / b + Real.sqrt (1 + (4 * v / b) ^ 2)) :=
    Real.log_nonneg (by linarith)
  have h3 : 0 ≤ (1 / (4 * v / b))
      * Real.log (4 * v / b + Real.sqrt (1 + (4 * v / b) ^ 2)) :=
    mul_nonneg (by positivity) h2
  have h4 : 0 < b / 2 := by linarith
  nlinarith

/-- C8: the machine epsilon is positive; the parabolic perimeter is
strictly positive for every pair of junction depths (positive height and
width); a nonpositive mean depth is replaced by the machine epsilon, so
the perimeter at any nonpositive mean equals the perimeter at mean
depth eps; the parabolic area and top width take their true value 0 at
zero depth with no epsilon substitution. -/
theorem parabolic_eps_guard :
    (0:ℝ) < eps ∧
    (∀ h1 h2 g1 g2 : ℝ, 0 < g1 → 0 < g2 → 0 < Parabolic_Pe_ik h1 h2 g1 g2) ∧
    (∀ h1 h2 g1 g2 : ℝ, (h1 + h2) / 2 ≤ 0 →
      Parabolic_Pe_ik h1 h2 g1 g2 = Parabolic_Pe_ik eps eps g1 g2) ∧
    (∀ g1 g2 : ℝ, 0 ≤ g1 → Parabolic_A_ik 0 0 g1 g2 = 0) ∧
    (∀ g1 g2 : ℝ, Parabolic_B_ik 0 0 g1 g2 = 0) := by
  refine ⟨eps_pos, ?_, ?_, ?_, ?_⟩
  · intro h1 h2 g1 g2 hg1 hg2
    simp only [Parabolic_Pe_ik]
    split_ifs with hc1 hc2 hc3
    · exact parab_term_pos hg1 hg2
    · exact parab_term_pos eps_pos hg2
    · exact parab_term_pos hg1 hg2
    · exact parab_term_pos (by linarith [not_le.mp hc1]) hg2
  · intro h1 h2 g1 g2 hm
    simp only [Parabolic_Pe_ik, add_self_div_two]
    rw [if_pos hm, if_neg (not_le.mpr eps_pos)]
  · intro g1 g2 hg
    have h0 : ¬ ((0:ℝ) > g1) := not_lt.mpr hg
    simp only [Parabolic_A_ik]
    norm_num [h0]
  · intro g1 g2
    simp only [Parabolic_B_ik]
    norm_num

/-- C8 witness: the epsilon guard theorem applied at height 1 and
width 1, with zero depths and with a negative mean depth. -/
theorem parabolic_eps_guard_witness :
    0 < Parabolic_Pe_ik 0 0 1 1 ∧
    Parabolic_Pe_ik (-2) 0 1 1 = Parabolic_Pe_ik eps eps 1 1 ∧
    Parabolic_A_ik 0 0 1 1 = 0 :=
  ⟨parabolic_eps_guard.2.1 0 0 1 1 (by norm_num) (by norm_num),
   parabolic_eps_guard.2.2.1 (-2) 0 1 1 (by norm_num),
   parabolic_eps_guard.2.2.2.1 1 1 (by norm_num)⟩

end NGeometry

namespace NGeometry

/-- C5: every shape except the force main has zero flow area at zero
effective depth (both junction depths zero, nonnegative parameters);
the force main area is always pi r squared, independent of depth. -/
theorem area_at_zero_depth :
    (∀ g1 : ℝ, 0 ≤ g1 → Circular_A_ik 0 0 g1 = 0) ∧
    (∀ g1 g2 : ℝ, 0 ≤ g1 → Rect_Closed_A_ik 0 0 g1 g2 = 0) ∧
    (∀ g1 g2 : ℝ, 0 ≤ g1 → Rect_Open_A_ik 0 0 g1 g2 = 0) ∧
    (∀ g1 g2 : ℝ, 0 ≤ g1 → Triangular_A_ik 0 0 g1 g2 = 0) ∧
    (∀ g1 g2 g3 : ℝ, 0 ≤ g1 → Trapezoidal_A_ik 0 0 g1 g2 g3 = 0) ∧
    (∀ g1 g2 : ℝ, 0 ≤ g1 → Parabolic_A_ik 0 0 g1 g2 = 0) ∧
    (∀ g1 g2 : ℝ, 0 ≤ g1 → Elliptical_A_ik 0 0 g1 g2 = 0) ∧
    (∀ g1 g2 : ℝ, 0 ≤ g1 → Wide_A_ik 0 0 g1 g2 = 0) ∧
    (∀ g1 g2 g3 g4 g5 g6 : ℝ, 0 ≤ g1 → 0 ≤ g2 →
      Floodplain_A_ik 0 0 g1 g2 g3 g4 g5 g6 = 0) ∧
    (∀ h1 h2 g1 g2 : ℝ, Force_Main_A_ik h1 h2 g1 g2 = Real.pi * (g1 / 2) ^ 2) := by
  refine ⟨?_, ?_, ?_, ?_, ?_, ?_, ?_, ?_, ?_, ?_⟩
  · intro g1 hg
    have h0 : ¬ ((0:ℝ) > g1) := not_lt.mpr hg
    simp only [Circular_A_ik]
    norm_num [h0]
  · intro g1 g2 hg
    have h0 : ¬ ((0:ℝ) > g1) := not_lt.mpr hg
    simp only [Rect_Closed_A_ik]
    norm_num [h0]
  · intro g1 g2 hg
    have h0 : ¬ ((0:ℝ) > g1) := not_lt.mpr hg
    simp only [Rect_Open_A_ik]
    norm_num [h0]
  · intro g1 g2 hg
    have h0 : ¬ ((0:ℝ) > g1) := not_lt.mpr hg
    simp only [Triangular_A_ik]
    norm_num [h0]
  · intro g1 g2 g3 hg
    have h0 : ¬ ((0:ℝ) > g1) := not_lt.mpr hg
    simp only [Trapezoidal_A_ik]
    norm_num [h0]
  · intro g1 g2 hg
    have h0 : ¬ ((0:ℝ) > g1) := not_lt.mpr hg
    simp only [Parabolic_A_ik]
    norm_num [h0]
  · intro g1 g2 hg
    have h0 : ¬ ((0:ℝ) > g1) := not_lt.mpr hg
    rcases eq_or_lt_of_le hg with hz | hpos
    · simp only [Elliptical_A_ik, ← hz]
      norm_num
    · have hne : g1 / 2 ≠ 0 := by positivity
      simp only [Elliptical_A_ik]
      norm_num [h0, neg_div, div_self hne]
  · intro g1 g2 hg
    have h0 : ¬ ((0:ℝ) > g1) := not_lt.mpr hg
    simp only [Wide_A_ik]
    norm_num [h0]
  · intro g1 g2 g3 g4 g5 g6 hg1 hg2
    have h0 : ¬ ((0:ℝ) > g1) := not_lt.mpr hg1
    simp only [Floodplain_A_ik]
    norm_num [h0]
    split_ifs with hc
    · ring
    · have hz : g2 = 0 := le_antisymm (not_lt.mp hc) hg2
      rw [hz]
      ring
  · intro h1 h2 g1 g2
    rfl

/-- C5 witness: the zero-depth area theorem applied at concrete positive
parameters for every shape. -/
theorem area_at_zero_depth_witness :
    Circular_A_ik 0 0 1 = 0 ∧
    Rect_Closed_A_ik 0 0 1 2 = 0 ∧
    Rect_Open_A_ik 0 0 1 2 = 0 ∧
    Triangular_A_ik 0 0 1 2 = 0 ∧
    Trapezoidal_A_ik 0 0 1 2 3 = 0 ∧
    Parabolic_A_ik 0 0 1 2 = 0 ∧
    Elliptical_A_ik 0 0 1 2 = 0 ∧
    Wide_A_ik 0 0 1 2 = 0 ∧
    Floodplain_A_ik 0 0 2 1 1 3 1 2 = 0 ∧
    Force_Main_A_ik 5 7 1 2 = Real.pi * (1 / 2) ^ 2 :=
  ⟨area_at_zero_depth.1 1 (by norm_num),
   area_at_zero_depth.2.1 1 2 (by norm_num),
   area_at_zero_depth.2.2.1 1 2 (by norm_num),
   area_at_zero_depth.2.2.2.1 1 2 (by norm_num),
   area_at_zero_depth.2.2.2.2.1 1 2 3 (by norm_num),
   area_at_zero_depth.2.2.2.2.2.1 1 2 (by norm_num),
   area_at_zero_depth.2.2.2.2.2.2.1 1 2 (by norm_num),
   area_at_zero_depth.2.2.2.2.2.2.2.1 1 2 (by norm_num),
   area_at_zero_depth.2.2.2.2.2.2.2.2.1 2 1 1 3 1 2 (by norm_num) (by norm_num),
   area_at_zero_depth.2.2.2.2.2.2.2.2.2 5 7 1 2⟩

end NGeometry

namespace NGeometry

/-! ### Helper lemmas for the nonnegativity of every output -/

lemma clamp0_mem {y ymax : ℝ} (h : 0 ≤ ymax) :
    0 ≤ clamp0 y ymax ∧ clamp0 y ymax ≤ ymax := by
  unfold clamp0
  split_ifs <;> constructor <;> linarith

lemma radius_nonneg {A Pe : ℝ} (hA : 0 ≤ A) : 0 ≤ radius A Pe := by
  simp only [radius]
  split_ifs with h
  · exact div_nonneg hA h.le
  · exact le_rfl

/-- The elliptical area expression is nonnegative for any value of the
arcsine argument. -/
lemma ell_term_nonneg (a b s : ℝ) (ha : 0 ≤ a) (hb : 0 ≤ b) :
    0 ≤ a * b * (Real.pi / 2 + Real.arcsin s)
      + a * b * Real.cos (Real.arcsin s) * Real.sin (Real.arcsin s) := by
  have h1 := Real.neg_pi_div_two_le_arcsin s
  have h2 := Real.arcsin_le_pi_div_two s
  have hu0 : 0 ≤ 2 * Real.arcsin s + Real.pi := by linarith [Real.pi_pos]
  have hs : Real.sin (2 * Real.arcsin s + Real.pi) ≤ 2 * Real.arcsin s + Real.pi :=
    sin_le_self hu0
  have hrw : Real.sin (2 * Real.arcsin s + Real.pi) = - Real.sin (2 * Real.arcsin s) :=
    Real.sin_add_pi _
  have h3 : Real.cos (Real.arcsin s) * Real.sin (Real.arcsin s)
      = Real.sin (2 * Real.arcsin s) / 2 := by
    rw [Real.sin_two_mul]; ring
  have hE : 0 ≤ Real.pi / 2 + Real.arcsin s
      + Real.cos (Real.arcsin s) * Real.sin (Real.arcsin s) := by
    rw [h3]
    rw [hrw] at hs
    linarith
  have hab : 0 ≤ a * b := mul_nonneg ha hb
  nlinarith [mul_nonneg hab hE]

end NGeometry

namespace NGeometry

set_option maxHeartbeats 4000000 in
/-- C3: with nonnegative (positive where marked) shape parameters, every
Area, Perimeter, and TopWidth evaluator returns a nonnegative real for
all junction depths, the shared hydraulic radius rule returns a
nonnegative value from a nonnegative area, and the arcsine argument of
the elliptical formulas always lies between -1 and 1 after clamping. -/
theorem outputs_nonneg :
    (∀ h1 h2 g1 : ℝ, 0 ≤ Circular_A_ik h1 h2 g1) ∧
    (∀ h1 h2 g1 : ℝ, 0 ≤ g1 → 0 ≤ Circular_Pe_ik h1 h2 g1) ∧
    (∀ h1 h2 g1 g2 : ℝ, 0 ≤ g1 → 0 ≤ g2 → 0 ≤ Circular_B_ik h1 h2 g1 g2) ∧
    (∀ h1 h2 g1 g2 : ℝ, 0 ≤ g1 → 0 ≤ g2 → 0 ≤ Rect_Closed_A_ik h1 h2 g1 g2) ∧
    (∀ h1 h2 g1 g2 : ℝ, 0 ≤ g1 → 0 ≤ g2 → 0 ≤ Rect_Closed_Pe_ik h1 h2 g1 g2) ∧
    (∀ h1 h2 g1 g2 g3 : ℝ, 0 ≤ g2 → 0 ≤ g3 → 0 ≤ Rect_Closed_B_ik h1 h2 g1 g2 g3) ∧
    (∀ h1 h2 g1 g2 : ℝ, 0 ≤ g1 → 0 ≤ g2 → 0 ≤ Rect_Open_A_ik h1 h2 g1 g2) ∧
    (∀ h1 h2 g1 g2 : ℝ, 0 ≤ g1 → 0 ≤ g2 → 0 ≤ Rect_Open_Pe_ik h1 h2 g1 g2) ∧
    (∀ h1 h2 g1 g2 : ℝ, 0 ≤ g2 → 0 ≤ Rect_Open_B_ik h1 h2 g1 g2) ∧
    (∀ h1 h2 g1 g2 : ℝ, 0 ≤ g2 → 0 ≤ Triangular_A_ik h1 h2 g1 g2) ∧
    (∀ h1 h2 g1 g2 : ℝ, 0 ≤ g1 → 0 ≤ Triangular_Pe_ik h1 h2 g1 g2) ∧
    (∀ h1 h2 g1 g2 : ℝ, 0 ≤ g1 → 0 ≤ g2 → 0 ≤ Triangular_B_ik h1 h2 g1 g2) ∧
    (∀ h1 h2 g1 g2 g3 : ℝ, 0 ≤ g1 → 0 ≤ g2 → 0 ≤ g3 →
      0 ≤ Trapezoidal_A_ik h1 h2 g1 g2 g3) ∧
    (∀ h1 h2 g1 g2 g3 : ℝ, 0 ≤ g1 → 0 ≤ g2 →
      0 ≤ Trapezoidal_Pe_ik h1 h2 g1 g2 g3) ∧
    (∀ h1 h2 g1 g2 g3 : ℝ, 0 ≤ g1 → 0 ≤ g2 → 0 ≤ g3 →
      0 ≤ Trapezoidal_B_ik h1 h2 g1 g2 g3) ∧
    (∀ h1 h2 g1 g2 : ℝ, 0 ≤ g1 → 0 ≤ g2 → 0 ≤ Parabolic_A_ik h1 h2 g1 g2) ∧
    (∀ h1 h2 g1 g2 : ℝ, 0 < g1 → 0 < g2 → 0 ≤ Parabolic_Pe_ik h1 h2 g1 g2) ∧
    (∀ h1 h2 g1 g2 : ℝ, 0 ≤ g2 → 0 ≤ Parabolic_B_ik h1 h2 g1 g2) ∧
    (∀ h1 h2 g1 g2 : ℝ, 0 ≤ g1 → 0 ≤ g2 → 0 ≤ Elliptical_A_ik h1 h2 g1 g2) ∧
    (∀ h1 h2 g1 g2 : ℝ, 0 ≤ Elliptical_B_ik h1 h2 g1 g2) ∧
    (∀ h1 h2 g1 g2 : ℝ, 0 ≤ g1 → 0 ≤ g2 → 0 ≤ Wide_A_ik h1 h2 g1 g2) ∧
    (∀ h1 h2 g1 g2 : ℝ, 0 ≤ g2 → 0 ≤ Wide_Pe_ik h1 h2 g1 g2) ∧
    (∀ h1 h2 g1 g2 : ℝ, 0 ≤ g2 → 0 ≤ Wide_B_ik h1 h2 g1 g2) ∧
    (∀ h1 h2 g1 g2 : ℝ, 0 ≤ Force_Main_A_ik h1 h2 g1 g2) ∧
    (∀ h1 h2 g1 g2 : ℝ, 0 ≤ g1 → 0 ≤ Force_Main_Pe_ik h1 h2 g1 g2) ∧
    (∀ h1 h2 g1 g2 : ℝ, 0 ≤ g1 → 0 ≤ g2 → 0 ≤ Force_Main_B_ik h1 h2 g1 g2) ∧
    (∀ h1 h2 g1 g2 g3 g4 g5 g6 : ℝ, 0 ≤ g1 → 0 ≤ g2 → 0 ≤ g3 → 0 ≤ g4 →
      0 ≤ g5 → 0 ≤ g6 → 0 ≤ Floodplain_A_ik h1 h2 g1 g2 g3 g4 g5 g6) ∧
    (∀ h1 h2 g1 g2 g3 g4 g5 g6 : ℝ, 0 ≤ g1 → 0 ≤ g2 → 0 ≤ g3 → 0 ≤ g4 →
      0 ≤ g5 → 0 ≤ g6 → 0 ≤ Floodplain_Pe_ik h1 h2 g1 g2 g3 g4 g5 g6) ∧
    (∀ h1 h2 g1 g2 g3 g4 g5 g6 : ℝ, 0 ≤ g1 → 0 ≤ g2 → 0 ≤ g3 → 0 ≤ g4 →
      0 ≤ g5 → 0 ≤ g6 → 0 ≤ Floodplain_B_ik h1 h2 g1 g2 g3 g4 g5 g6) ∧
    (∀ A Pe : ℝ, 0 ≤ A → 0 ≤ Circular_R_ik A Pe) ∧
    (∀ A Pe : ℝ, 0 ≤ A → 0 ≤ Rect_Closed_R_ik A Pe) ∧
    (∀ A Pe : ℝ, 0 ≤ A → 0 ≤ Rect_Open_R_ik A Pe) ∧
    (∀ A Pe : ℝ, 0 ≤ A → 0 ≤ Triangular_R_ik A Pe) ∧
    (∀ A Pe : ℝ, 0 ≤ A → 0 ≤ Trapezoidal_R_ik A Pe) ∧
    (∀ A Pe : ℝ, 0 ≤ A → 0 ≤ Parabolic_R_ik A Pe) ∧
    (∀ A Pe : ℝ, 0 ≤ A → 0 ≤ Elliptical_R_ik A Pe) ∧
    (∀ A Pe : ℝ, 0 ≤ A → 0 ≤ Wide_R_ik A Pe) ∧
    (∀ A Pe : ℝ, 0 ≤ A → 0 ≤ Force_Main_R_ik A Pe) ∧
    (∀ A Pe : ℝ, 0 ≤ A → 0 ≤ Floodplain_R_ik A Pe) ∧
    (∀ h1 h2 g1 : ℝ, 0 < g1 →
      -1 ≤ (clamp0 ((h1 + h2) / 2) g1 - g1 / 2) / (g1 / 2) ∧
      (clamp0 ((h1 + h2) / 2) g1 - g1 / 2) / (g1 / 2) ≤ 1) := by
  refine ⟨?_, ?_, ?_, ?_, ?_, ?_, ?_, ?_, ?_, ?_, ?_, ?_, ?_, ?_, ?_, ?_, ?_,
    ?_, ?_, ?_, ?_, ?_, ?_, ?_, ?_, ?_, ?_, ?_, ?_, ?_, ?_, ?_, ?_, ?_, ?_,
    ?_, ?_, ?_, ?_, ?_⟩
  · intro h1 h2 g1
    simp only [Circular_A_ik]
    split_ifs <;> exact mul_nonneg (sq_nonneg _) (arccos_sub_cos_sin_nonneg _)
  · intro h1 h2 g1 hg1
    simp only [Circular_Pe_ik]
    split_ifs <;>
      exact mul_nonneg (mul_nonneg (by norm_num) (by linarith)) (Real.arccos_nonneg _)
  · intro h1 h2 g1 g2 hg1 hg2
    simp only [Circular_B_ik]
    split_ifs <;>
      first
      | exact mul_nonneg (mul_nonneg (by norm_num) (by linarith))
          (by rw [Real.sin_arccos]; exact Real.sqrt_nonneg _)
      | exact mul_nonneg hg2 hg1
  · intro h1 h2 g1 g2 hg1 hg2
    simp only [Rect_Closed_A_ik]
    split_ifs <;> exact mul_nonneg (by linarith) hg2
  · intro h1 h2 g1 g2 hg1 hg2
    simp only [Rect_Closed_Pe_ik]
    split_ifs <;> linarith
  · intro h1 h2 g1 g2 g3 hg2 hg3
    simp only [Rect_Closed_B_ik]
    split_ifs <;> first | linarith | exact mul_nonneg hg3 hg2
  · intro h1 h2 g1 g2 hg1 hg2
    simp only [Rect_Open_A_ik]
    split_ifs <;> exact mul_nonneg (by linarith) hg2
  · intro h1 h2 g1 g2 hg1 hg2
    simp only [Rect_Open_Pe_ik]
    split_ifs <;> linarith
  · intro h1 h2 g1 g2 hg2
    simp only [Rect_Open_B_ik]
    exact hg2
  · intro h1 h2 g1 g2 hg2
    simp only [Triangular_A_ik]
    split_ifs <;> exact mul_nonneg hg2 (sq_nonneg _)
  · intro h1 h2 g1 g2 hg1
    simp only [Triangular_Pe_ik]
    split_ifs <;>
      exact mul_nonneg (mul_nonneg (by norm_num) (by linarith)) (Real.sqrt_nonneg _)
  · intro h1 h2 g1 g2 hg1 hg2
    simp only [Triangular_B_ik]
    split_ifs <;> exact mul_nonneg (mul_nonneg (by norm_num) hg2) (by linarith)
  · intro h1 h2 g1 g2 g3 hg1 hg2 hg3
    simp only [Trapezoidal_A_ik]
    split_ifs <;> exact quad_nonneg (by linarith) hg2 hg3
  · intro h1 h2 g1 g2 g3 hg1 hg2
    simp only [Trapezoidal_Pe_ik]
    split_ifs <;> nlinarith [Real.sqrt_nonneg (1 + g3 ^ 2)]
  · intro h1 h2 g1 g2 g3 hg1 hg2 hg3
    simp only [Trapezoidal_B_ik]
    split_ifs <;> nlinarith
  · intro h1 h2 g1 g2 hg1 hg2
    simp only [Parabolic_A_ik]
    split_ifs <;> nlinarith
  · intro h1 h2 g1 g2 hg1 hg2
    simp only [Parabolic_Pe_ik]
    split_ifs with hc1 hc2 hc3
    · exact (parab_term_pos hg1 hg2).le
    · exact (parab_term_pos eps_pos hg2).le
    · exact (parab_term_pos hg1 hg2).le
    · exact (parab_term_pos (by linarith [not_le.mp hc1]) hg2).le
  · intro h1 h2 g1 g2 hg2
    simp only [Parabolic_B_ik]
    split_ifs <;> exact mul_nonneg hg2 (Real.sqrt_nonneg _)
  · intro h1 h2 g1 g2 hg1 hg2
    simp only [Elliptical_A_ik]
    split_ifs <;> exact ell_term_nonneg _ _ _ (by linarith) (by linarith)
  · intro h1 h2 g1 g2
    simp only [Elliptical_B_ik]
    split_ifs <;>
      exact mul_nonneg (mul_nonneg (by norm_num) (Real.cos_arcsin_nonneg _))
        (Real.sqrt_nonneg _)
  · intro h1 h2 g1 g2 hg1 hg2
    simp only [Wide_A_ik]
    split_ifs <;> exact mul_nonneg (by linarith) hg2
  · intro h1 h2 g1 g2 hg2
    simp only [Wide_Pe_ik]
    exact hg2
  · intro h1 h2 g1 g2 hg2
    simp only [Wide_B_ik]
    exact hg2
  · intro h1 h2 g1 g2
    simp only [Force_Main_A_ik]
    positivity
  · intro h1 h2 g1 g2 hg1
    simp only [Force_Main_Pe_ik]
    exact mul_nonneg Real.pi_pos.le hg1
  · intro h1 h2 g1 g2 hg1 hg2
    simp only [Force_Main_B_ik]
    exact mul_nonneg hg2 hg1
  · intro h1 h2 g1 g2 g3 g4 g5 g6 hg1 hg2 hg3 hg4 hg5 hg6
    rw [Floodplain_A_clamp]
    obtain ⟨hc0, hc1⟩ := clamp0_mem (y := (h1 + h2) / 2) hg1
    rcases lt_or_le (clamp0 ((h1 + h2) / 2) g1) g2 with hlt | hge
    · rw [Floodplain_A_eval_lower hc0 hc1 hlt]
      exact quad_nonneg hc0 hg3 hg5
    · rw [Floodplain_A_eval_upper hc0 hc1 hge]
      have s1 : 0 ≤ g2 * (g3 + g5 * g2) := quad_nonneg hg2 hg3 hg5
      have s2 : 0 ≤ (clamp0 ((h1 + h2) / 2) g1 - g2)
          * (g4 + g6 * (clamp0 ((h1 + h2) / 2) g1 - g2)) :=
        quad_nonneg (by linarith) hg4 hg6
      linarith
  · intro h1 h2 g1 g2 g3 g4 g5 g6 hg1 hg2 hg3 hg4 hg5 hg6
    rw [Floodplain_Pe_clamp]
    obtain ⟨hc0, hc1⟩ := clamp0_mem (y := (h1 + h2) / 2) hg1
    rcases lt_or_le (clamp0 ((h1 + h2) / 2) g1) g2 with hlt | hge
    · rw [Floodplain_Pe_eval_lower hc0 hc1 hlt]
      nlinarith [mul_nonneg hc0 (Real.sqrt_nonneg (1 + g5 ^ 2))]
    · rw [Floodplain_Pe_eval_upper hc0 hc1 hge]
      nlinarith [mul_nonneg hg2 (sub_nonneg.mpr (self_le_sqrt_one_add_sq hg5)),
        mul_nonneg (sub_nonneg.mpr hge) (Real.sqrt_nonneg (1 + g6 ^ 2))]
  · intro h1 h2 g1 g2 g3 g4 g5 g6 hg1 hg2 hg3 hg4 hg5 hg6
    rw [Floodplain_B_clamp]
    obtain ⟨hc0, hc1⟩ := clamp0_mem (y := (h1 + h2) / 2) hg1
    rcases lt_or_le (clamp0 ((h1 + h2) / 2) g1) g2 with hlt | hge
    · rw [Floodplain_B_eval_lower hc0 hc1 hlt]
      nlinarith [mul_nonneg hg5 hc0]
    · rw [Floodplain_B_eval_upper hc0 hc1 hge]
      nlinarith [mul_nonneg hg6 (sub_nonneg.mpr hge)]
  · exact fun A Pe hA => radius_nonneg hA
  · exact fun A Pe hA => radius_nonneg hA
  · exact fun A Pe hA => radius_nonneg hA
  · exact fun A Pe hA => radius_nonneg hA
  · exact fun A Pe hA => radius_nonneg hA
  · exact fun A Pe hA => radius_nonneg hA
  · exact fun A Pe hA => radius_nonneg hA
  · exact fun A Pe hA => radius_nonneg hA
  · exact fun A Pe hA => radius_nonneg hA
  · exact fun A Pe hA => radius_nonneg hA
  · intro h1 h2 g1 hg
    obtain ⟨hc0, hc1⟩ := clamp0_mem (y := (h1 + h2) / 2) hg.le
    have hr : 0 < g1 / 2 := by linarith
    constructor
    · rw [le_div_iff₀ hr]
      linarith
    · rw [div_le_one hr]
      linarith

end NGeometry

namespace NGeometry

/-- C3 witness: the nonnegativity theorem applied at concrete depths
and parameters for every conjunct. -/
theorem outputs_nonneg_witness :
    (0 ≤ Circular_A_ik 1 2 3) ∧
    (0 ≤ Circular_Pe_ik 1 2 3) ∧
    (0 ≤ Circular_B_ik 1 2 3 4) ∧
    (0 ≤ Rect_Closed_A_ik 1 2 3 4) ∧
    (0 ≤ Rect_Closed_Pe_ik 1 2 3 4) ∧
    (0 ≤ Rect_Closed_B_ik 1 2 3 4 5) ∧
    (0 ≤ Rect_Open_A_ik 1 2 3 4) ∧
    (0 ≤ Rect_Open_Pe_ik 1 2 3 4) ∧
    (0 ≤ Rect_Open_B_ik 1 2 3 4) ∧
    (0 ≤ Triangular_A_ik 1 2 3 4) ∧
    (0 ≤ Triangular_Pe_ik 1 2 3 4) ∧
    (0 ≤ Triangular_B_ik 1 2 3 4) ∧
    (0 ≤ Trapezoidal_A_ik 1 2 3 4 5) ∧
    (0 ≤ Trapezoidal_Pe_ik 1 2 3 4 5) ∧
    (0 ≤ Trapezoidal_B_ik 1 2 3 4 5) ∧
    (0 ≤ Parabolic_A_ik 1 2 3 4) ∧
    (0 ≤ Parabolic_Pe_ik 1 2 3 4) ∧
    (0 ≤ Parabolic_B_ik 1 2 3 4) ∧
    (0 ≤ Elliptical_A_ik 1 2 3 4) ∧
    (0 ≤ Elliptical_B_ik 1 2 3 4) ∧
    (0 ≤ Wide_A_ik 1 2 3 4) ∧
    (0 ≤ Wide_Pe_ik 1 2 3 4) ∧
    (0 ≤ Wide_B_ik 1 2 3 4) ∧
    (0 ≤ Force_Main_A_ik 1 2 3 4) ∧
    (0 ≤ Force_Main_Pe_ik 1 2 3 4) ∧
    (0 ≤ Force_Main_B_ik 1 2 3 4) ∧
    (0 ≤ Floodplain_A_ik 1 2 2 1 1 3 1 2) ∧
    (0 ≤ Floodplain_Pe_ik 1 2 2 1 1 3 1 2) ∧
    (0 ≤ Floodplain_B_ik 1 2 2 1 1 3 1 2) ∧
    (0 ≤ Circular_R_ik 1 2) ∧
    (0 ≤ Rect_Closed_R_ik 1 2) ∧
    (0 ≤ Rect_Open_R_ik 1 2) ∧
    (0 ≤ Triangular_R_ik 1 2) ∧
    (0 ≤ Trapezoidal_R_ik 1 2) ∧
    (0 ≤ Parabolic_R_ik 1 2) ∧
    (0 ≤ Elliptical_R_ik 1 2) ∧
    (0 ≤ Wide_R_ik 1 2) ∧
    (0 ≤ Force_Main_R_ik 1 2) ∧
    (0 ≤ Floodplain_R_ik 1 2) ∧
    (-1 ≤ (clamp0 ((0 + 1) / 2) 1 - 1 / 2) / (1 / 2) ∧ (clamp0 ((0 + 1) / 2) 1 - 1 / 2) / (1 / 2) ≤ 1) :=
  ⟨outputs_nonneg.1 1 2 3,
   outputs_nonneg.2.1 1 2 3 (by norm_num),
   outputs_nonneg.2.2.1 1 2 3 4 (by norm_num) (by norm_num),
   outputs_nonneg.2.2.2.1 1 2 3 4 (by norm_num) (by norm_num),
   outputs_nonneg.2.2.2.2.1 1 2 3 4 (by norm_num) (by norm_num),
   outputs_nonneg.2.2.2.2.2.1 1 2 3 4 5 (by norm_num) (by norm_num),
   outputs_nonneg.2.2.2.2.2.2.1 1 2 3 4 (by norm_num) (by norm_num),
   outputs_nonneg.2.2.2.2.2.2.2.1 1 2 3 4 (by norm_num) (by norm_num),
   outputs_nonneg.2.2.2.2.2.2.2.2.1 1 2 3 4 (by norm_num),
   outputs_nonneg.2.2.2.2.2.2.2.2.2.1 1 2 3 4 (by norm_num),
   outputs_nonneg.2.2.2.2.2.2.2.2.2.2.1 1 2 3 4 (by norm_num),
   outputs_nonneg.2.2.2.2.2.2.2.2.2.2.2.1 1 2 3 4 (by norm_num) (by norm_num),
   outputs_nonneg.2.2.2.2.2.2.2.2.2.2.2.2.1 1 2 3 4 5 (by norm_num) (by norm_num) (by norm_num),
   outputs_nonneg.2.2.2.2.2.2.2.2.2.2.2.2.2.1 1 2 3 4 5 (by norm_num) (by norm_num),
   outputs_nonneg.2.2.2.2.2.2.2.2.2.2.2.2.2.2.1 1 2 3 4 5 (by norm_num) (by norm_num) (by norm_num),
   outputs_nonneg.2.2.2.2.2.2.2.2.2.2.2.2.2.2.2.1 1 2 3 4 (by norm_num) (by norm_num),
   outputs_nonneg.2.2.2.2.2.2.2.2.2.2.2.2.2.2.2.2.1 1 2 3 4 (by norm_num) (by norm_num),
   outputs_nonneg.2.2.2.2.2.2.2.2.2.2.2.2.2.2.2.2.2.1 1 2 3 4 (by norm_num),
   outputs_nonneg.2.2.2.2.2.2.2.2.2.2.2.2.2.2.2.2.2.2.1 1 2 3 4 (by norm_num) (by norm_num),
   outputs_nonneg.2.2.2.2.2.2.2.2.2.2.2.2.2.2.2.2.2.2.2.1 1 2 3 4,
   outputs_nonneg.2.2.2.2.2.2.2.2.2.2.2.2.2.2.2.2.2.2.2.2.1 1 2 3 4 (by norm_num) (by norm_num),
   outputs_nonneg.2.2.2.2.2.2.2.2.2.2.2.2.2.2.2.2.2.2.2.2.2.1 1 2 3 4 (by norm_num),
   outputs_nonneg.2.2.2.2.2.2.2.2.2.2.2.2.2.2.2.2.2.2.2.2.2.2.1 1 2 3 4 (by norm_num),
   outputs_nonneg.2.2.2.2.2.2.2.2.2.2.2.2.2.2.2.2.2.2.2.2.2.2.2.1 1 2 3 4,
   outputs_nonneg.2.2.2.2.2.2.2.2.2.2.2.2.2.2.2.2.2.2.2.2.2.2.2.2.1 1 2 3 4 (by norm_num),
   outputs_nonneg.2.2.2.2.2.2.2.2.2.2.2.2.2.2.2.2.2.2.2.2.2.2.2.2.2.1 1 2 3 4 (by norm_num) (by norm_num),
   outputs_nonneg.2.2.2.2.2.2.2.2.2.2.2.2.2.2.2.2.2.2.2.2.2.2.2.2.2.2.1 1 2 2 1 1 3 1 2 (by norm_num) (by norm_num) (by norm_num) (by norm_num) (by norm_num) (by norm_num),
   outputs_nonneg.2.2.2.2.2.2.2.2.2.2.2.2.2.2.2.2.2.2.2.2.2.2.2.2.2.2.2.1 1 2 2 1 1 3 1 2 (by norm_num) (by norm_num) (by norm_num) (by norm_num) (by norm_num) (by norm_num),
   outputs_nonneg.2.2.2.2.2.2.2.2.2.2.2.2.2.2.2.2.2.2.2.2.2.2.2.2.2.2.2.2.1 1 2 2 1 1 3 1 2 (by norm_num) (by norm_num) (by norm_num) (by norm_num) (by norm_num) (by norm_num),
   outputs_nonneg.2.2.2.2.2.2.2.2.2.2.2.2.2.2.2.2.2.2.2.2.2.2.2.2.2.2.2.2.2.1 1 2 (by norm_num),
   outputs_nonneg.2.2.2.2.2.2.2.2.2.2.2.2.2.2.2.2.2.2.2.2.2.2.2.2.2.2.2.2.2.2.1 1 2 (by norm_num),
   outputs_nonneg.2.2.2.2.2.2.2.2.2.2.2.2.2.2.2.2.2.2.2.2.2.2.2.2.2.2.2.2.2.2.2.1 1 2 (by norm_num),
   outputs_nonneg.2.2.2.2.2.2.2.2.2.2.2.2.2.2.2.2.2.2.2.2.2.2.2.2.2.2.2.2.2.2.2.2.1 1 2 (by norm_num),
   outputs_nonneg.2.2.2.2.2.2.2.2.2.2.2.2.2.2.2.2.2.2.2.2.2.2.2.2.2.2.2.2.2.2.2.2.2.1 1 2 (by norm_num),
   outputs_nonneg.2.2.2.2.2.2.2.2.2.2.2.2.2.2.2.2.2.2.2.2.2.2.2.2.2.2.2.2.2.2.2.2.2.2.1 1 2 (by norm_num),
   outputs_nonneg.2.2.2.2.2.2.2.2.2.2.2.2.2.2.2.2.2.2.2.2.2.2.2.2.2.2.2.2.2.2.2.2.2.2.2.1 1 2 (by norm_num),
   outputs_nonneg.2.2.2.2.2.2.2.2.2.2.2.2.2.2.2.2.2.2.2.2.2.2.2.2.2.2.2.2.2.2.2.2.2.2.2.2.1 1 2 (by norm_num),
   outputs_nonneg.2.2.2.2.2.2.2.2.2.2.2.2.2.2.2.2.2.2.2.2.2.2.2.2.2.2.2.2.2.2.2.2.2.2.2.2.2.1 1 2 (by norm_num),
   outputs_nonneg.2.2.2.2.2.2.2.2.2.2.2.2.2.2.2.2.2.2.2.2.2.2.2.2.2.2.2.2.2.2.2.2.2.2.2.2.2.2.1 1 2 (by norm_num),
   outputs_nonneg.2.2.2.2.2.2.2.2.2.2.2.2.2.2.2.2.2.2.2.2.2.2.2.2.2.2.2.2.2.2.2.2.2.2.2.2.2.2.2 0 1 1 (by norm_num)⟩

end NGeometry
